import Mathlib

/-!
Verification of the email ingestion and routing engine of the ticket-tracking
service (`backend/app/services/email_polling_service.py`,
`backend/app/core/security.py` and the ORM models it uses).

The Python source is shallowly embedded: the relational store is a record of
lists mirroring the relevant tables, each service method becomes a Lean
function on that state, exceptions become `Except`, and the points where the
real system can fail (IMAP connect, IMAP listing, a raised exception at a
per-message stage, an unexpected error inside the routing engine) become
explicit boolean/fault inputs that select the corresponding `except` branch
of the source.
-/

namespace EmailPolling

/-! ## Python string primitives used by the service

Python slices strings by code points, so `s[:n]` is `take n` on the character
list; `str.lower()` and `needle in hay` are modelled on character lists as
well. -/

/-- Python `s[:n]` (slice by code points, used for column-width truncation). -/
def pySlice (s : String) (n : Nat) : String := String.mk (s.data.take n)

/-- Python `s.lower()` on the characters of `s`. -/
def pyLower (s : String) : String := String.mk (s.data.map Char.toLower)

/-- Character-list prefix test. -/
def listPrefixOf : List Char → List Char → Bool
  | [], _ => true
  | _ :: _, [] => false
  | a :: as, b :: bs => a == b && listPrefixOf as bs

/-- Contiguous-sublist test on character lists. -/
def listInfixOf (needle : List Char) : List Char → Bool
  | [] => needle.isEmpty
  | c :: rest => listPrefixOf needle (c :: rest) || listInfixOf needle rest

/-- Python `needle in hay` for strings: contiguous substring test. -/
def pyContains (hay needle : String) : Bool := listInfixOf needle.data hay.data

/-! ## SHA-256 (`hashlib.sha256(subject.encode('utf-8')).hexdigest()`)

`_hash_subject` fingerprints the subject with SHA-256 over its UTF-8
encoding and renders the digest as 64 lowercase hex characters.  The hash is
implemented here over `List Nat` bytes, with 32-bit words as `Nat` reduced
`% 2 ^ 32`. -/

/-- UTF-8 encoding of one character as a list of bytes. -/
def utf8Char (c : Char) : List Nat :=
  let n := c.toNat
  if n < 0x80 then [n]
  else if n < 0x800 then
    [0xC0 + n / 0x40, 0x80 + n % 0x40]
  else if n < 0x10000 then
    [0xE0 + n / 0x1000, 0x80 + n / 0x40 % 0x40, 0x80 + n % 0x40]
  else
    [0xF0 + n / 0x40000, 0x80 + n / 0x1000 % 0x40, 0x80 + n / 0x40 % 0x40,
     0x80 + n % 0x40]

/-- Python `s.encode('utf-8')` as a byte list. -/
def utf8Encode (s : String) : List Nat := s.data.flatMap utf8Char

/-- Right rotation of a 32-bit word. -/
def rotr32 (n x : Nat) : Nat := ((x >>> n) ^^^ (x <<< (32 - n))) % 2 ^ 32

/-- SHA-256 round constants. -/
def sha256K : List Nat :=
  [1116352408, 1899447441, 3049323471, 3921009573, 961987163, 1508970993,
   2453635748, 2870763221, 3624381080, 310598401, 607225278, 1426881987,
   1925078388, 2162078206, 2614888103, 3248222580, 3835390401, 4022224774,
   264347078, 604807628, 770255983, 1249150122, 1555081692, 1996064986,
   2554220882, 2821834349, 2952996808, 3210313671, 3336571891, 3584528711,
   113926993, 338241895, 666307205, 773529912, 1294757372, 1396182291,
   1695183700, 1986661051, 2177026350, 2456956037, 2730485921, 2820302411,
   3259730800, 3345764771, 3516065817, 3600352804, 4094571909, 275423344,
   430227734, 506948616, 659060556, 883997877, 958139571, 1322822218,
   1537002063, 1747873779, 1955562222, 2024104815, 2227730452, 2361852424,
   2428436474, 2756734187, 3204031479, 3329325298]

/-- The eight 32-bit working variables of the compression function. -/
structure Hash8 where
  a : Nat
  b : Nat
  c : Nat
  d : Nat
  e : Nat
  f : Nat
  g : Nat
  h : Nat
deriving Repr, DecidableEq

/-- SHA-256 initial hash value. -/
def sha256Init : Hash8 :=
  ⟨1779033703, 3144134277, 1013904242, 2773480762,
   1359893119, 2600822924, 528734635, 1541459225⟩

/-- One round of the SHA-256 compression function. -/
def sha256Round (st : Hash8) (k w : Nat) : Hash8 :=
  let s1 := (rotr32 6 st.e) ^^^ (rotr32 11 st.e) ^^^ (rotr32 25 st.e)
  let ch := (st.e &&& st.f) ^^^ ((st.e ^^^ 0xffffffff) &&& st.g)
  let t1 := (st.h + s1 + ch + k + w) % 2 ^ 32
  let s0 := (rotr32 2 st.a) ^^^ (rotr32 13 st.a) ^^^ (rotr32 22 st.a)
  let mj := (st.a &&& st.b) ^^^ (st.a &&& st.c) ^^^ (st.b &&& st.c)
  let t2 := (s0 + mj) % 2 ^ 32
  ⟨(t1 + t2) % 2 ^ 32, st.a, st.b, st.c, (st.d + t1) % 2 ^ 32, st.e, st.f, st.g⟩

/-- Message-schedule extension: grows the 16-word block to 64 words. -/
def sha256Extend (w : List Nat) : List Nat :=
  (List.range 48).foldl
    (fun acc _ =>
      let n := acc.length
      let s0v := acc.getD (n - 15) 0
      let s1v := acc.getD (n - 2) 0
      let s0 := (rotr32 7 s0v) ^^^ (rotr32 18 s0v) ^^^ (s0v >>> 3)
      let s1 := (rotr32 17 s1v) ^^^ (rotr32 19 s1v) ^^^ (s1v >>> 10)
      acc ++ [(acc.getD (n - 16) 0 + s0 + acc.getD (n - 7) 0 + s1) % 2 ^ 32])
    w

/-- Packs a byte list into big-endian 32-bit words. -/
def bytesToWords : List Nat → List Nat
  | b0 :: b1 :: b2 :: b3 :: rest =>
      (b0 * 0x1000000 + b1 * 0x10000 + b2 * 0x100 + b3) :: bytesToWords rest
  | _ => []

/-- Big-endian bytes of a 32-bit word. -/
def wordBytes (w : Nat) : List Nat :=
  [w / 0x1000000 % 0x100, w / 0x10000 % 0x100, w / 0x100 % 0x100, w % 0x100]

/-- SHA-256 padding: append `0x80`, zero bytes to 56 mod 64, then the
bit length as 8 big-endian bytes. -/
def sha256Pad (msg : List Nat) : List Nat :=
  let len := msg.length
  let zeros := (64 + 55 - len % 64) % 64
  msg ++ [0x80] ++ List.replicate zeros 0 ++
    [len * 8 / 0x100000000000000 % 0x100, len * 8 / 0x1000000000000 % 0x100,
     len * 8 / 0x10000000000 % 0x100, len * 8 / 0x100000000 % 0x100,
     len * 8 / 0x1000000 % 0x100, len * 8 / 0x10000 % 0x100,
     len * 8 / 0x100 % 0x100, len * 8 % 0x100]

/-- Processes one 64-byte block. -/
def sha256Block (H : Hash8) (block : List Nat) : Hash8 :=
  let w := sha256Extend (bytesToWords block)
  let st := (sha256K.zip w).foldl (fun s p => sha256Round s p.1 p.2) H
  ⟨(H.a + st.a) % 2 ^ 32, (H.b + st.b) % 2 ^ 32, (H.c + st.c) % 2 ^ 32,
   (H.d + st.d) % 2 ^ 32, (H.e + st.e) % 2 ^ 32, (H.f + st.f) % 2 ^ 32,
   (H.g + st.g) % 2 ^ 32, (H.h + st.h) % 2 ^ 32⟩

/-- Splits a byte list into 64-byte chunks (fuel = list length). -/
def chunk64 : Nat → List Nat → List (List Nat)
  | 0, _ => []
  | _, [] => []
  | fuel + 1, l => l.take 64 :: chunk64 fuel (l.drop 64)

/-- SHA-256 digest of a byte list, as 32 bytes. -/
def sha256Bytes (msg : List Nat) : List Nat :=
  let padded := sha256Pad msg
  let fin := (chunk64 padded.length padded).foldl sha256Block sha256Init
  wordBytes fin.a ++ wordBytes fin.b ++ wordBytes fin.c ++ wordBytes fin.d ++
    wordBytes fin.e ++ wordBytes fin.f ++ wordBytes fin.g ++ wordBytes fin.h

/-- Lowercase hex character for a value below 16. -/
def hexChar (n : Nat) : Char :=
  if n < 10 then Char.ofNat (48 + n) else Char.ofNat (87 + n)

/-- Two lowercase hex characters per byte, as `hexdigest` renders them. -/
def hexOfBytes : List Nat → List Char
  | [] => []
  | b :: bs => hexChar (b / 16 % 16) :: hexChar (b % 16) :: hexOfBytes bs

/-- `EmailPollingService._hash_subject`: SHA-256 hex digest of the UTF-8
subject. -/
def hash_subject (subject : String) : String :=
  String.mk (hexOfBytes (sha256Bytes (utf8Encode subject)))

/-! ## Data model

One structure per ORM model, with the columns the polling service reads or
writes.  Timestamps are `Int` (minutes); ticket identifiers are `Nat` in
place of UUID values, drawn from an injected stream (`Config.uuidGen`)
standing for `uuid.uuid4()`. -/

/-- `app.models.board.Board` (columns used by routing). -/
structure Board where
  id : Nat
  manager_id : Nat
  name : String
  is_archived : Bool
  exclusive_inbox_id : Option Nat
deriving Repr, DecidableEq

/-- `app.models.board_keyword.BoardKeyword`. -/
structure BoardKeyword where
  board_id : Nat
  keyword : String
deriving Repr, DecidableEq

/-- `app.models.ticket.Ticket` (columns written by the email path). -/
structure Ticket where
  uuid : Nat
  board_id : Nat
  title : String
  description : String
  creator_email : String
  source : String
  state : String
deriving Repr, DecidableEq

/-- `app.models.standby_queue_item.StandbyQueueItem`. -/
structure StandbyQueueItem where
  manager_id : Nat
  email_subject : String
  email_body : String
  sender_email : String
  failure_reason : String
  retry_count : Nat
deriving Repr, DecidableEq

/-- `app.models.processed_email.ProcessedEmail`. -/
structure ProcessedEmail where
  inbox_id : Nat
  message_id : String
  sender_email : String
  subject_hash : String
  processed_at : Int
deriving Repr, DecidableEq

/-- `app.models.email_inbox.EmailInbox` (columns the core reads, plus
`last_polled_at`, the one column it writes). -/
structure EmailInbox where
  id : Nat
  manager_id : Nat
  name : String
  imap_host : String
  imap_username : String
  from_address : String
  polling_interval : Nat
  last_polled_at : Option Int
  is_active : Bool
deriving Repr, DecidableEq

/-- The relational store as seen by one poll cycle.  `external_ticket_uuids`
is the uuid column of the `external_tickets` table (the only column
`generate_unique_ticket_uuid` consults); `uuid_drawn` counts how many
candidates have been drawn from the uuid stream. -/
structure DBState where
  inboxes : List EmailInbox
  boards : List Board
  board_keywords : List BoardKeyword
  tickets : List Ticket
  standby_queue_items : List StandbyQueueItem
  processed_emails : List ProcessedEmail
  external_ticket_uuids : List Nat
  uuid_drawn : Nat
deriving Repr, DecidableEq

/-- `settings` fields the service reads, plus the uuid-candidate stream. -/
structure Config where
  DUPLICATE_EMAIL_THRESHOLD_MINUTES : Int
  uuidGen : Nat → Nat

/-- Default of `Settings.DUPLICATE_EMAIL_THRESHOLD_MINUTES`
(`app/core/config.py`, line 46). -/
def defaultDuplicateThresholdMinutes : Int := 60

/-! ## Message parsing (`_parse_email`)

`message_from_bytes`, header decoding and MIME body selection are library
behaviour; a raw payload is abstracted as either a message the library
decodes (carrying the extracted `Message-ID`, `From`, decoded `Subject` and
selected text body) or a payload whose parse raises. -/

/-- A raw mail payload, at the granularity `_parse_email` observes it. -/
inductive RawEmail where
  | wellFormed (message_id sender subject body : String)
  | malformed
deriving Repr, DecidableEq

/-- The normalized record `_parse_email` returns. -/
structure ParsedEmail where
  message_id : String
  sender : String
  subject : String
  body : String
deriving Repr, DecidableEq

/-- Python's whitespace test for `str.strip()` (ASCII whitespace). -/
def pyIsSpace (c : Char) : Bool :=
  c == ' ' || c == '\t' || c == '\n' || c == '\r' || c == '\x0b' ||
    c == '\x0c'

/-- Python `s.strip()`: drop whitespace from both ends. -/
def pyStrip (s : String) : String :=
  String.mk (((s.data.dropWhile pyIsSpace).reverse.dropWhile
    pyIsSpace).reverse)

/-- The `"Name <addr>"` unwrapping of the `From` header:
`sender.split('<')[1].split('>')[0]` when `'<' in sender`. -/
def extractAddr (sender : String) : String :=
  if sender.data.contains '<' then
    String.mk ((((sender.data.dropWhile (fun c => c != '<')).drop 1).takeWhile
      (fun c => c != '<')).takeWhile (fun c => c != '>'))
  else sender

/-- `EmailPollingService._parse_email`: on success the trimmed fields, on a
parse exception the fallback record of its `except` branch. -/
def parse_email : RawEmail → ParsedEmail
  | RawEmail.wellFormed message_id sender subject body =>
      ⟨message_id, pyStrip (extractAddr sender), pyStrip subject,
        pyStrip body⟩
  | RawEmail.malformed =>
      ⟨"", "", "Failed to parse subject", "Failed to parse email body"⟩

/-! ## IMAP server state -/

/-- One message on the IMAP server: its sequence number, raw payload and
`\Seen` flag. -/
structure ImapMessage where
  num : Nat
  raw : RawEmail
  seen : Bool
deriving Repr, DecidableEq

/-- The selected `INBOX` folder. -/
structure ImapState where
  msgs : List ImapMessage
deriving Repr, DecidableEq

/-- `_fetch_unread_emails`: the `UNSEEN` search plus per-message fetch,
returning `(msg_num, raw)` pairs in mailbox order. -/
def fetch_unread_emails (s : ImapState) : List (Nat × RawEmail) :=
  (s.msgs.filter (fun m => !m.seen)).map (fun m => (m.num, m.raw))

/-- `imap_client.store(msg_num, '+FLAGS', '\Seen')`. -/
def store_seen (s : ImapState) (num : Nat) : ImapState :=
  ⟨s.msgs.map (fun m => if m.num = num then { m with seen := true } else m)⟩

/-! ## Unique ticket identifier allocation
(`app.core.security.generate_unique_ticket_uuid`) -/

/-- The collision-retry loop of `generate_unique_ticket_uuid`: `draw i` is
the candidate produced by the `i`-th `uuid.uuid4()` call; each candidate is
checked against the `tickets` table and then the `external_tickets` table.
Returns the fresh identifier and the number of candidates consumed. -/
def uuidAttempts (draw : Nat → Nat) (ticket_uuids external_uuids : List Nat) :
    Nat → Nat → Option (Nat × Nat)
  | _, 0 => none
  | i, fuel + 1 =>
      let new_uuid := draw i
      if ticket_uuids.contains new_uuid then
        uuidAttempts draw ticket_uuids external_uuids (i + 1) fuel
      else if external_uuids.contains new_uuid then
        uuidAttempts draw ticket_uuids external_uuids (i + 1) fuel
      else
        some (new_uuid, i + 1)

/-- `generate_unique_ticket_uuid(db, max_attempts)`: the identifier unique
across both tables, or the `RuntimeError` raised after exhausting all
attempts. -/
def generate_unique_ticket_uuid (draw : Nat → Nat)
    (ticket_uuids external_uuids : List Nat) (max_attempts : Nat) :
    Except String Nat :=
  match uuidAttempts draw ticket_uuids external_uuids 0 max_attempts with
  | some (u, _) => Except.ok u
  | none => Except.error
      ("Failed to generate unique UUID after " ++ toString max_attempts ++
        " attempts")

/-! ## The polling service (`EmailPollingService`) -/

/-- `EmailPollingService._is_duplicate`: a Processed-Email row with the same
inbox, sender and subject hash, processed within
`DUPLICATE_EMAIL_THRESHOLD_MINUTES` of `now`. -/
def is_duplicate (cfg : Config) (now : Int) (db : DBState) (inbox_id : Nat)
    (sender subject_hash : String) : Bool :=
  let threshold := now - cfg.DUPLICATE_EMAIL_THRESHOLD_MINUTES
  db.processed_emails.any (fun r =>
    r.inbox_id == inbox_id && r.sender_email == sender &&
      r.subject_hash == subject_hash && decide (threshold ≤ r.processed_at))

/-- `EmailPollingService._create_standby_queue_item`: append one standby
row, subject truncated to its 255-character column, retry counter zero. -/
def create_standby_queue_item (db : DBState) (manager_id : Nat)
    (sender subject body failure_reason : String) : DBState :=
  { db with standby_queue_items := db.standby_queue_items ++
      [{ manager_id := manager_id, email_subject := pySlice subject 255,
         email_body := body, sender_email := sender,
         failure_reason := failure_reason, retry_count := 0 }] }

/-- `EmailPollingService._create_ticket`: allocate a unique identifier, then
commit the ticket row.  A `none` result is the raised-and-rolled-back
exception of its `except` branch (identifier allocation exhausted): no row
is committed.  The confirmation email is fire-and-forget and external. -/
def create_ticket (cfg : Config) (db : DBState) (board : Board)
    (sender subject body : String) (_inbox : EmailInbox) :
    DBState × Option Ticket :=
  match uuidAttempts (fun i => cfg.uuidGen (db.uuid_drawn + i))
      (db.tickets.map (fun t => t.uuid)) db.external_ticket_uuids 0 10 with
  | none => ({ db with uuid_drawn := db.uuid_drawn + 10 }, none)
  | some (u, k) =>
      let t : Ticket :=
        { uuid := u, board_id := board.id, title := pySlice subject 255,
          description := pySlice body 6000, creator_email := sender,
          source := "email", state := "new" }
      ({ db with
          tickets := db.tickets ++ [t]
          uuid_drawn := db.uuid_drawn + k }, some t)

/-- `EmailPollingService._mark_processed`: append one Processed-Email row,
message id and sender truncated to their 255-character columns, timestamp
`now`. -/
def mark_processed (now : Int) (db : DBState) (inbox_id : Nat)
    (message_id sender subject_hash : String) : DBState :=
  { db with processed_emails := db.processed_emails ++
      [{ inbox_id := inbox_id, message_id := pySlice message_id 255,
         sender_email := pySlice sender 255, subject_hash := subject_hash,
         processed_at := now }] }

/-- Priority 1 of `_route_email`: the first non-archived board with this
inbox as its exclusive inbox (the query carries no owner filter). -/
def exclusiveFind (db : DBState) (inbox : EmailInbox) : Option Board :=
  db.boards.find? (fun b =>
    b.exclusive_inbox_id == some inbox.id && !b.is_archived)

/-- Priority 2 of `_route_email`: the join
`BoardKeyword × Board` filtered to non-archived boards of the account with
no exclusive inbox, in table iteration order. -/
def keywordJoin (db : DBState) (manager_id : Nat) : List BoardKeyword :=
  db.board_keywords.filter (fun kw =>
    match db.boards.find? (fun b => b.id == kw.board_id) with
    | some b =>
        b.manager_id == manager_id && b.exclusive_inbox_id.isNone &&
          !b.is_archived
    | none => false)

/-- The `for keyword_obj in keywords` loop of `_route_email`: first keyword
occurring case-insensitively in the subject wins; a raised ticket-creation
error (`Except.error`) escapes the loop into the routing `except` branch;
falling off the loop yields the `no_keyword_match` standby item. -/
def keywordLoop (cfg : Config) (db : DBState) (inbox : EmailInbox)
    (sender subject body : String) :
    List BoardKeyword → Except DBState (DBState × Option Ticket)
  | [] => Except.ok
      (create_standby_queue_item db inbox.manager_id sender subject body
        "no_keyword_match", none)
  | kw :: rest =>
      if pyContains (pyLower subject) (pyLower kw.keyword) then
        match db.boards.find? (fun b => b.id == kw.board_id) with
        | some board =>
            match create_ticket cfg db board sender subject body inbox with
            | (db1, some t) => Except.ok (db1, some t)
            | (db1, none) => Except.error db1
        | none => keywordLoop cfg db inbox sender subject body rest
      else keywordLoop cfg db inbox sender subject body rest

/-- The `try` block of `_route_email`: exclusive-inbox match first, then the
keyword loop. -/
def route_email_try (cfg : Config) (db : DBState) (inbox : EmailInbox)
    (sender subject body : String) :
    Except DBState (DBState × Option Ticket) :=
  match exclusiveFind db inbox with
  | some board =>
      match create_ticket cfg db board sender subject body inbox with
      | (db1, some t) => Except.ok (db1, some t)
      | (db1, none) => Except.error db1
  | none =>
      keywordLoop cfg db inbox sender subject body
        (keywordJoin db inbox.manager_id)

/-- `EmailPollingService._route_email`.  `err` injects an unexpected error
at the start of evaluation; any error — injected or raised by ticket
creation — lands in the `except` branch, which records a `no_board_match`
standby item instead of propagating. -/
def route_email (err : Bool) (cfg : Config) (db : DBState)
    (inbox : EmailInbox) (sender subject body : String) :
    DBState × Option Ticket :=
  if err then
    (create_standby_queue_item db inbox.manager_id sender subject body
      "no_board_match", none)
  else
    match route_email_try cfg db inbox sender subject body with
    | Except.ok r => r
    | Except.error db1 =>
        (create_standby_queue_item db1 inbox.manager_id sender subject body
          "no_board_match", none)

/-! ## The per-inbox poll cycle (`EmailPollingService.poll_inbox`)

The per-message `try/except` of the orchestrator is modelled with
`Except`: a raised exception carries the state at the moment it is raised
(each earlier write has already been committed), and the handler resumes
the loop from that state.  `MsgFault` injects an exception at each stage
that can raise one in the source. -/

/-- An injected per-message exception. -/
inductive MsgFault where
  /-- the duplicate-detector query raises -/
  | dupCheck
  /-- an unexpected error inside the routing engine's `try` block -/
  | routeEval
  /-- the processed-record commit raises -/
  | markProcessed
  /-- the IMAP `\Seen` flag update raises -/
  | storeSeen
deriving Repr, DecidableEq

/-- The body of the `for msg_num, raw_email in emails` loop, before its
`except` handler. -/
def process_message_inner (cfg : Config) (fault : Option MsgFault)
    (now : Int) (inbox : EmailInbox) (st : DBState × ImapState)
    (num : Nat) (raw : RawEmail) :
    Except (DBState × ImapState) (DBState × ImapState) :=
  let parsed := parse_email raw
  if parsed.sender = "" ∨ parsed.subject = "" then
    Except.ok st
  else
    let subject_hash := hash_subject parsed.subject
    if fault = some MsgFault.dupCheck then Except.error st
    else if is_duplicate cfg now st.1 inbox.id parsed.sender subject_hash then
      if fault = some MsgFault.storeSeen then Except.error st
      else Except.ok (st.1, store_seen st.2 num)
    else
      let routed := route_email (decide (fault = some MsgFault.routeEval))
        cfg st.1 inbox parsed.sender parsed.subject parsed.body
      let db1 := routed.1
      if fault = some MsgFault.markProcessed then Except.error (db1, st.2)
      else
        let db2 := mark_processed now db1 inbox.id parsed.message_id
          parsed.sender subject_hash
        if fault = some MsgFault.storeSeen then Except.error (db2, st.2)
        else Except.ok (db2, store_seen st.2 num)

/-- One iteration of the per-message loop with its `except` handler: a
raised exception is caught and the loop continues from the state it left
behind. -/
def process_message (cfg : Config) (fault : Option MsgFault) (now : Int)
    (inbox : EmailInbox) (st : DBState × ImapState) (p : Nat × RawEmail) :
    DBState × ImapState :=
  match process_message_inner cfg fault now inbox st p.1 p.2 with
  | Except.ok st1 => st1
  | Except.error st1 => st1

/-- The end of a successful cycle:
`inbox.last_polled_at = datetime.now(timezone.utc); db.commit()`. -/
def finalize_poll (db : DBState) (inbox_id : Nat) (now : Int) : DBState :=
  { db with inboxes := db.inboxes.map (fun ib =>
      if ib.id = inbox_id then { ib with last_polled_at := some now }
      else ib) }

/-- `EmailPollingService.poll_inbox`.  `connectOk` is the outcome of
`_connect_imap` (authentication or network failure raises, is caught, and
the cycle returns at once); `listOk` is the outcome of the network calls
inside `_fetch_unread_emails` (whose own `except` branch swallows the error
and returns an empty list); `faultOf` assigns an injected per-message
exception by message number. -/
def poll_inbox (cfg : Config) (faultOf : Nat → Option MsgFault)
    (connectOk listOk : Bool) (now : Int) (inbox_id : Nat)
    (db : DBState) (imap : ImapState) : DBState × ImapState :=
  match db.inboxes.find? (fun ib => ib.id == inbox_id) with
  | none => (db, imap)
  | some inbox =>
    if !inbox.is_active then (db, imap)
    else if !connectOk then (db, imap)
    else
      let emails := if listOk then fetch_unread_emails imap else []
      let st1 := emails.foldl
        (fun st p => process_message cfg (faultOf p.1) now inbox st p)
        (db, imap)
      (finalize_poll st1.1 inbox_id now, st1.2)

/-- Tickets plus standby-queue items: the rows whose creation the
duplicate-suppression property counts. -/
def itemCount (db : DBState) : Nat :=
  db.tickets.length + db.standby_queue_items.length

/-- Invariant of the replay argument: either no Processed-Email row for the
fingerprint `(inboxId, s, hsub)` exists yet and nothing has been created, or
such a row stamped no earlier than `t1` exists and at most one
ticket-or-standby row has been created. -/
def dupInv (inboxId : Nat) (s hsub : String) (T0 : Nat) (t1 : Int)
    (db : DBState) : Prop :=
  ((∀ r ∈ db.processed_emails,
      ¬(r.inbox_id = inboxId ∧ r.sender_email = s ∧
        r.subject_hash = hsub)) ∧
    itemCount db = T0) ∨
  ((∃ r ∈ db.processed_emails,
      r.inbox_id = inboxId ∧ r.sender_email = s ∧ r.subject_hash = hsub ∧
      t1 ≤ r.processed_at) ∧
    itemCount db ≤ T0 + 1)

/-- One replayed delivery burst: the parameters of one poll cycle during the
replay scenario. -/
structure ReplayCycle where
  now : Int
  connectOk : Bool
  listOk : Bool
  imap : ImapState

/-- The database after a sequence of poll cycles of one inbox, each cycle
seeing its own mailbox contents. -/
def runReplay (cfg : Config) (inboxId : Nat) (db : DBState)
    (cycles : List ReplayCycle) : DBState :=
  cycles.foldl (fun db c =>
    (poll_inbox cfg (fun _ => none) c.connectOk c.listOk c.now inboxId db
      c.imap).1) db

/-- Witness inputs for C1: one inbox, one board with keyword `bug`, an
empty store, and two poll cycles ten minutes apart each delivering a fresh
unseen copy of the same message. -/
def c1Cfg : Config :=
  { DUPLICATE_EMAIL_THRESHOLD_MINUTES := 60, uuidGen := fun n => n + 1000 }

def c1Raw : RawEmail :=
  RawEmail.wellFormed "<m1@x.com>" "user@x.com" "URGENT bug in login"
    "it crashed"

def c1Inbox : EmailInbox :=
  { id := 1, manager_id := 1, name := "support",
    imap_host := "imap.example.com", imap_username := "support",
    from_address := "support@example.com", polling_interval := 5,
    last_polled_at := none, is_active := true }

def c1Board : Board :=
  { id := 2, manager_id := 1, name := "Bugs", is_archived := false,
    exclusive_inbox_id := none }

def c1Db : DBState :=
  { inboxes := [c1Inbox]
    boards := [c1Board]
    board_keywords := [{ board_id := 2, keyword := "bug" }]
    tickets := []
    standby_queue_items := []
    processed_emails := []
    external_ticket_uuids := []
    uuid_drawn := 0 }

def c1Cycles : List ReplayCycle :=
  [{ now := 0, connectOk := true, listOk := true,
     imap := ⟨[{ num := 1, raw := c1Raw, seen := false }]⟩ },
   { now := 10, connectOk := true, listOk := true,
     imap := ⟨[{ num := 2, raw := c1Raw, seen := false }]⟩ }]

/-- A state holding a Processed-Email row for the replayed fingerprint,
stamped five minutes into the window. -/
def c1DupState : DBState × ImapState :=
  ({ c1Db with processed_emails :=
      [{ inbox_id := 1
         message_id := "<m1@x.com>"
         sender_email := "user@x.com"
         subject_hash := hash_subject "URGENT bug in login"
         processed_at := 5 }] },
   ⟨[{ num := 3, raw := c1Raw, seen := false }]⟩)

/-- Witness inputs for C2: board 2 exclusively bound to inbox 1, board 3 of
the same account carrying keyword `bug`, which occurs in the subject. -/
def c2Cfg : Config :=
  { DUPLICATE_EMAIL_THRESHOLD_MINUTES := 60, uuidGen := fun n => n + 500 }

def c2Inbox : EmailInbox :=
  { id := 1, manager_id := 1, name := "sales",
    imap_host := "imap.example.com", imap_username := "sales",
    from_address := "sales@example.com", polling_interval := 5,
    last_polled_at := none, is_active := true }

def c2B : Board :=
  { id := 2, manager_id := 1, name := "Exclusive", is_archived := false,
    exclusive_inbox_id := some 1 }

def c2Bkw : Board :=
  { id := 3, manager_id := 1, name := "Helpdesk", is_archived := false,
    exclusive_inbox_id := none }

def c2Db : DBState :=
  { inboxes := [c2Inbox]
    boards := [c2B, c2Bkw]
    board_keywords := [{ board_id := 3, keyword := "bug" }]
    tickets := []
    standby_queue_items := []
    processed_emails := []
    external_ticket_uuids := []
    uuid_drawn := 0 }

/-- Witness inputs for C3: one non-archived board of the account with
keyword `docs` and no exclusive binding. -/
def c3Cfg : Config :=
  { DUPLICATE_EMAIL_THRESHOLD_MINUTES := 60, uuidGen := fun n => n + 700 }

def c3Inbox : EmailInbox :=
  { id := 1, manager_id := 1, name := "info",
    imap_host := "imap.example.com", imap_username := "info",
    from_address := "info@example.com", polling_interval := 5,
    last_polled_at := none, is_active := true }

def c3Board : Board :=
  { id := 4, manager_id := 1, name := "Docs", is_archived := false,
    exclusive_inbox_id := none }

def c3Db : DBState :=
  { inboxes := [c3Inbox]
    boards := [c3Board]
    board_keywords := [{ board_id := 4, keyword := "docs" }]
    tickets := []
    standby_queue_items := []
    processed_emails := []
    external_ticket_uuids := []
    uuid_drawn := 0 }

/-- Witness inputs for C8: a board exclusively bound to the inbox and a
300-character subject. -/
def c8Cfg : Config :=
  { DUPLICATE_EMAIL_THRESHOLD_MINUTES := 60, uuidGen := fun n => n + 800 }

def c8Inbox : EmailInbox :=
  { id := 1, manager_id := 1, name := "bugs",
    imap_host := "imap.example.com", imap_username := "bugs",
    from_address := "bugs@example.com", polling_interval := 5,
    last_polled_at := none, is_active := true }

def c8Board : Board :=
  { id := 2, manager_id := 1, name := "Bugs", is_archived := false,
    exclusive_inbox_id := some 1 }

def c8Db : DBState :=
  { inboxes := [c8Inbox]
    boards := [c8Board]
    board_keywords := []
    tickets := []
    standby_queue_items := []
    processed_emails := []
    external_ticket_uuids := []
    uuid_drawn := 0 }

def c8Subject : String := String.mk (List.replicate 300 'a')

def c8Ticket : Ticket :=
  ⟨800, 2, pySlice c8Subject 255, pySlice "it crashed" 6000, "u@x.com",
    "email", "new"⟩

def c8Db1 : DBState :=
  { c8Db with tickets := [c8Ticket], uuid_drawn := 1 }

/-- Witness/counterexample inputs for the cycle-level claims: one active
inbox, never polled, empty store. -/
def c5Cfg : Config :=
  { DUPLICATE_EMAIL_THRESHOLD_MINUTES := 60, uuidGen := fun n => n }

def c5Inbox : EmailInbox :=
  { id := 1, manager_id := 1, name := "ops",
    imap_host := "imap.example.com", imap_username := "ops",
    from_address := "ops@example.com", polling_interval := 5,
    last_polled_at := none, is_active := true }

def c5Db : DBState :=
  { inboxes := [c5Inbox]
    boards := []
    board_keywords := []
    tickets := []
    standby_queue_items := []
    processed_emails := []
    external_ticket_uuids := []
    uuid_drawn := 0 }

/-- Inputs exhibiting the C7 transactionality gap: a routable message whose
processed-record commit fails after the ticket commit succeeded. -/
def c7Cfg : Config :=
  { DUPLICATE_EMAIL_THRESHOLD_MINUTES := 60, uuidGen := fun n => n + 900 }

def c7Inbox : EmailInbox :=
  { id := 1, manager_id := 1, name := "bugs",
    imap_host := "imap.example.com", imap_username := "bugs",
    from_address := "bugs@example.com", polling_interval := 5,
    last_polled_at := none, is_active := true }

def c7Board : Board :=
  { id := 2, manager_id := 1, name := "Bugs", is_archived := false,
    exclusive_inbox_id := some 1 }

def c7Db : DBState :=
  { inboxes := [c7Inbox]
    boards := [c7Board]
    board_keywords := []
    tickets := []
    standby_queue_items := []
    processed_emails := []
    external_ticket_uuids := []
    uuid_drawn := 0 }

def c7Raw : RawEmail :=
  RawEmail.wellFormed "<m7@x.com>" "user@x.com" "crash report" "boom"

def c9Imap : ImapState :=
  ⟨[{ num := 1, raw := RawEmail.malformed, seen := false }]⟩

/-- Parameters of one later poll of the same inbox. -/
structure PollRun where
  faultOf : Nat → Option MsgFault
  connectOk : Bool
  listOk : Bool
  now : Int

/-- A sequence of polls of one inbox, threading store and mailbox. -/
def runPolls (cfg : Config) (inboxId : Nat) (st : DBState × ImapState)
    (runs : List PollRun) : DBState × ImapState :=
  runs.foldl (fun st r =>
    poll_inbox cfg r.faultOf r.connectOk r.listOk r.now inboxId st.1 st.2)
    st

def c10Msg : ImapMessage :=
  { num := 1, raw := RawEmail.malformed, seen := false }

theorem pySlice_length (s : String) (n : Nat) :
    (pySlice s n).length = min n s.length := by
  show (s.data.take n).length = min n s.data.length
  exact List.length_take ..

theorem pySlice_of_length_le (s : String) (n : Nat) (h : s.length ≤ n) :
    pySlice s n = s := by
  simp only [pySlice]
  rw [List.take_of_length_le h]

theorem pySlice_data (s : String) (n : Nat) :
    (pySlice s n).data = s.data.take n := rfl

theorem hexOfBytes_length (l : List Nat) :
    (hexOfBytes l).length = 2 * l.length := by
  induction l with
  | nil => rfl
  | cons b bs ih => simp [hexOfBytes, ih]; ring

theorem wordBytes_length (w : Nat) : (wordBytes w).length = 4 := rfl

theorem sha256Bytes_length (msg : List Nat) : (sha256Bytes msg).length = 32 := by
  simp [sha256Bytes, wordBytes]

theorem hash_subject_length (s : String) : (hash_subject s).length = 64 := by
  simp [hash_subject, String.length, hexOfBytes_length, sha256Bytes_length]

/-! ## Frame lemmas for the individual writes -/

theorem create_standby_queue_item_eq (db : DBState) (mgr : Nat)
    (sender subject body fr : String) :
    create_standby_queue_item db mgr sender subject body fr =
      { db with standby_queue_items := db.standby_queue_items ++
          [{ manager_id := mgr, email_subject := pySlice subject 255,
             email_body := body, sender_email := sender,
             failure_reason := fr, retry_count := 0 }] } := rfl

theorem uuidAttempts_fresh (draw : Nat → Nat) (tU eU : List Nat) :
    ∀ fuel i u k, uuidAttempts draw tU eU i fuel = some (u, k) →
      u ∉ tU ∧ u ∉ eU := by
  intro fuel
  induction fuel with
  | zero => intro i u k h; simp [uuidAttempts] at h
  | succ n ih =>
      intro i u k h
      simp only [uuidAttempts] at h
      by_cases h1 : tU.contains (draw i) = true
      · rw [if_pos h1] at h; exact ih _ _ _ h
      · rw [if_neg h1] at h
        by_cases h2 : eU.contains (draw i) = true
        · rw [if_pos h2] at h; exact ih _ _ _ h
        · rw [if_neg h2] at h
          obtain ⟨hu, _⟩ := Prod.mk.injEq .. ▸ (Option.some.injEq .. ▸ h)
          subst hu
          exact ⟨fun hm => h1 (List.elem_iff.mpr hm),
                 fun hm => h2 (List.elem_iff.mpr hm)⟩

theorem uuidAttempts_exhausted (draw : Nat → Nat) (tU eU : List Nat) :
    ∀ fuel i, (∀ j, i ≤ j → j < i + fuel → draw j ∈ tU ∨ draw j ∈ eU) →
      uuidAttempts draw tU eU i fuel = none := by
  intro fuel
  induction fuel with
  | zero => intro i _; rfl
  | succ n ih =>
      intro i hall
      have hi : draw i ∈ tU ∨ draw i ∈ eU :=
        hall i le_rfl (by omega)
      simp only [uuidAttempts]
      rcases hi with hm | hm
      · rw [if_pos (List.elem_iff.mpr hm)]
        exact ih (i + 1) (fun j hj1 hj2 => hall j (by omega) (by omega))
      · by_cases h1 : tU.contains (draw i) = true
        · rw [if_pos h1]
          exact ih (i + 1) (fun j hj1 hj2 => hall j (by omega) (by omega))
        · rw [if_neg h1, if_pos (List.elem_iff.mpr hm)]
          exact ih (i + 1) (fun j hj1 hj2 => hall j (by omega) (by omega))

theorem uuidAttempts_first_fresh (draw : Nat → Nat) (tU eU : List Nat)
    (fuel i : Nat) (h1 : draw i ∉ tU) (h2 : draw i ∉ eU) (hf : 0 < fuel) :
    uuidAttempts draw tU eU i fuel = some (draw i, i + 1) := by
  obtain ⟨n, rfl⟩ := Nat.exists_eq_succ_of_ne_zero (Nat.pos_iff_ne_zero.mp hf)
  simp only [uuidAttempts]
  rw [if_neg (fun hc => h1 (List.elem_iff.mp hc)),
      if_neg (fun hc => h2 (List.elem_iff.mp hc))]

/-- Outcome shape of `_create_ticket`: on success exactly one ticket row is
appended, carrying the email-path column values; on the raised
identifier-allocation exhaustion no row is committed. -/
theorem create_ticket_result (cfg : Config) (db : DBState) (board : Board)
    (sender subject body : String) (inbox : EmailInbox) :
    (∃ t k, create_ticket cfg db board sender subject body inbox =
        ({ db with
            tickets := db.tickets ++ [t]
            uuid_drawn := k }, some t) ∧
      t.board_id = board.id ∧ t.source = "email" ∧ t.state = "new" ∧
      t.title = pySlice subject 255 ∧ t.description = pySlice body 6000 ∧
      t.creator_email = sender) ∨
    create_ticket cfg db board sender subject body inbox =
      ({ db with uuid_drawn := db.uuid_drawn + 10 }, none) := by
  rcases h : uuidAttempts (fun i => cfg.uuidGen (db.uuid_drawn + i))
      (db.tickets.map (fun t => t.uuid)) db.external_ticket_uuids 0 10 with
    _ | ⟨u, k⟩
  · right; simp [create_ticket, h]
  · left
    refine ⟨{ uuid := u, board_id := board.id, title := pySlice subject 255,
              description := pySlice body 6000, creator_email := sender,
              source := "email", state := "new" },
      db.uuid_drawn + k, ?_, rfl, rfl, rfl, rfl, rfl, rfl⟩
    simp [create_ticket, h]

/-- Outcome shape of the keyword loop: a ticket, the fall-through
`no_keyword_match` standby item, or a raised ticket-creation error that
left no row behind. -/
theorem keywordLoop_result (cfg : Config) (db : DBState) (inbox : EmailInbox)
    (sender subject body : String) :
    ∀ ks : List BoardKeyword,
    (∃ db1 t, keywordLoop cfg db inbox sender subject body ks =
        Except.ok (db1, some t) ∧
      db1.standby_queue_items = db.standby_queue_items ∧
      db1.processed_emails = db.processed_emails ∧
      db1.inboxes = db.inboxes ∧
      db1.tickets = db.tickets ++ [t] ∧
      t.source = "email" ∧ t.state = "new" ∧ t.title = pySlice subject 255 ∧
      t.description = pySlice body 6000 ∧ t.creator_email = sender) ∨
    keywordLoop cfg db inbox sender subject body ks =
      Except.ok
        (create_standby_queue_item db inbox.manager_id sender subject body
          "no_keyword_match", none) ∨
    (∃ db1, keywordLoop cfg db inbox sender subject body ks =
        Except.error db1 ∧
      db1.tickets = db.tickets ∧
      db1.standby_queue_items = db.standby_queue_items ∧
      db1.processed_emails = db.processed_emails ∧
      db1.inboxes = db.inboxes) := by
  intro ks
  induction ks with
  | nil => right; left; rfl
  | cons kw rest ih =>
      by_cases hm : pyContains (pyLower subject) (pyLower kw.keyword) = true
      · rcases hb : db.boards.find? (fun b => b.id == kw.board_id) with _ | board
        · simpa only [keywordLoop, if_pos hm, hb] using ih
        · rcases create_ticket_result cfg db board sender subject body inbox with
            ⟨t, k, hct, _, hsrc, hst, hti, hde, hcr⟩ | hct
          · left
            refine ⟨{ db with
                tickets := db.tickets ++ [t]
                uuid_drawn := k }, t, ?_, rfl, rfl, rfl, rfl,
              hsrc, hst, hti, hde, hcr⟩
            simp only [keywordLoop, if_pos hm, hb, hct]
          · right; right
            refine ⟨{ db with uuid_drawn := db.uuid_drawn + 10 }, ?_,
              rfl, rfl, rfl, rfl⟩
            simp only [keywordLoop, if_pos hm, hb, hct]
      · simpa only [keywordLoop, if_neg hm] using ih

/-- Outcome shape of `_route_email`: either exactly one ticket row is
committed (and no standby row), or exactly one standby row tagged
`no_keyword_match` or `no_board_match` (and no ticket row); other tables
are untouched and nothing propagates out. -/
theorem route_email_result (err : Bool) (cfg : Config) (db : DBState)
    (inbox : EmailInbox) (sender subject body : String) :
    (∃ db1 t, route_email err cfg db inbox sender subject body =
        (db1, some t) ∧
      db1.standby_queue_items = db.standby_queue_items ∧
      db1.processed_emails = db.processed_emails ∧
      db1.inboxes = db.inboxes ∧
      db1.tickets = db.tickets ++ [t] ∧
      t.source = "email" ∧ t.state = "new" ∧ t.title = pySlice subject 255 ∧
      t.description = pySlice body 6000 ∧ t.creator_email = sender) ∨
    (∃ db1 fr, route_email err cfg db inbox sender subject body =
        (db1, none) ∧
      (fr = "no_keyword_match" ∨ fr = "no_board_match") ∧
      db1.tickets = db.tickets ∧
      db1.processed_emails = db.processed_emails ∧
      db1.inboxes = db.inboxes ∧
      db1.standby_queue_items = db.standby_queue_items ++
        [{ manager_id := inbox.manager_id, email_subject := pySlice subject 255,
           email_body := body, sender_email := sender, failure_reason := fr,
           retry_count := 0 }]) := by
  cases err with
  | true =>
      right
      exact ⟨create_standby_queue_item db inbox.manager_id sender subject body
          "no_board_match", "no_board_match", rfl, Or.inr rfl,
        rfl, rfl, rfl, rfl⟩
  | false =>
      rcases hx : exclusiveFind db inbox with _ | board
      · rcases keywordLoop_result cfg db inbox sender subject body
            (keywordJoin db inbox.manager_id) with
          ⟨db1, t, hk, h1, h2, h3, h4, h5, h6, h7, h8, h9⟩ | hk |
          ⟨db1, hk, h1, h2, h3, h4⟩
        · left
          refine ⟨db1, t, ?_, h1, h2, h3, h4, h5, h6, h7, h8, h9⟩
          simp only [route_email, route_email_try, hx, hk, Bool.false_eq_true,
            if_false]
        · right
          refine ⟨create_standby_queue_item db inbox.manager_id sender subject
              body "no_keyword_match", "no_keyword_match", ?_, Or.inl rfl,
            rfl, rfl, rfl, rfl⟩
          simp only [route_email, route_email_try, hx, hk, Bool.false_eq_true,
            if_false]
        · right
          refine ⟨create_standby_queue_item db1 inbox.manager_id sender subject
              body "no_board_match", "no_board_match", ?_, Or.inr rfl,
            h1, h3, h4, ?_⟩
          · simp only [route_email, route_email_try, hx, hk,
              Bool.false_eq_true, if_false]
          · show db1.standby_queue_items ++ _ = db.standby_queue_items ++ _
            rw [h2]
      · rcases create_ticket_result cfg db board sender subject body inbox with
          ⟨t, k, hct, hbid, hsrc, hst, hti, hde, hcr⟩ | hct
        · left
          refine ⟨{ db with
              tickets := db.tickets ++ [t]
              uuid_drawn := k }, t, ?_, rfl, rfl, rfl, rfl,
            hsrc, hst, hti, hde, hcr⟩
          simp only [route_email, route_email_try, hx, hct,
            Bool.false_eq_true, if_false]
        · right
          refine ⟨create_standby_queue_item
              { db with uuid_drawn := db.uuid_drawn + 10 } inbox.manager_id
              sender subject body "no_board_match", "no_board_match", ?_,
            Or.inr rfl, rfl, rfl, rfl, rfl⟩
          simp only [route_email, route_email_try, hx, hct,
            Bool.false_eq_true, if_false]

theorem route_email_inboxes (err : Bool) (cfg : Config) (db : DBState)
    (inbox : EmailInbox) (sender subject body : String) :
    (route_email err cfg db inbox sender subject body).1.inboxes =
      db.inboxes := by
  rcases route_email_result err cfg db inbox sender subject body with
    ⟨db1, t, heq, _, _, h3, _⟩ | ⟨db1, fr, heq, _, _, _, h3, _⟩ <;>
  · rw [heq]; exact h3

theorem route_email_processed (err : Bool) (cfg : Config) (db : DBState)
    (inbox : EmailInbox) (sender subject body : String) :
    (route_email err cfg db inbox sender subject body).1.processed_emails =
      db.processed_emails := by
  rcases route_email_result err cfg db inbox sender subject body with
    ⟨db1, t, heq, _, h2, _⟩ | ⟨db1, fr, heq, _, _, h2, _⟩ <;>
  · rw [heq]; exact h2

theorem route_email_itemCount (err : Bool) (cfg : Config) (db : DBState)
    (inbox : EmailInbox) (sender subject body : String) :
    itemCount (route_email err cfg db inbox sender subject body).1 =
      itemCount db + 1 := by
  rcases route_email_result err cfg db inbox sender subject body with
    ⟨db1, t, heq, h1, _, _, h4, _⟩ | ⟨db1, fr, heq, _, h1, _, _, h4⟩ <;>
  · rw [heq]
    simp [itemCount, h1, h4]
    omega

/-- A record with an empty sender or subject is discarded before the
duplicate check: no write, no seen flag. -/
theorem process_message_discard (cfg : Config) (fault : Option MsgFault)
    (now : Int) (inbox : EmailInbox) (st : DBState × ImapState)
    (num : Nat) (raw : RawEmail)
    (h : (parse_email raw).sender = "" ∨ (parse_email raw).subject = "") :
    process_message cfg fault now inbox st (num, raw) = st := by
  simp only [process_message, process_message_inner, if_pos h]

/-- An exception raised by the duplicate-detector query is caught by the
per-message handler and leaves the state untouched. -/
theorem process_message_dupCheck_fault (cfg : Config) (now : Int)
    (inbox : EmailInbox) (st : DBState × ImapState) (num : Nat)
    (raw : RawEmail) :
    process_message cfg (some MsgFault.dupCheck) now inbox st (num, raw) =
      st := by
  by_cases h : (parse_email raw).sender = "" ∨ (parse_email raw).subject = ""
  · exact process_message_discard _ _ _ _ _ _ _ h
  · simp only [process_message, process_message_inner, if_neg h]
    simp

/-- A duplicate hit marks the message seen and writes nothing. -/
theorem process_message_dup_hit (cfg : Config) (now : Int)
    (inbox : EmailInbox) (st : DBState × ImapState) (num : Nat)
    (raw : RawEmail)
    (hne : ¬((parse_email raw).sender = "" ∨ (parse_email raw).subject = ""))
    (hdup : is_duplicate cfg now st.1 inbox.id (parse_email raw).sender
      (hash_subject (parse_email raw).subject) = true) :
    process_message cfg none now inbox st (num, raw) =
      (st.1, store_seen st.2 num) := by
  simp only [process_message, process_message_inner, if_neg hne]
  rw [if_neg (by simp : ¬((none : Option MsgFault) = some MsgFault.dupCheck)),
    if_pos hdup,
    if_neg (by simp : ¬((none : Option MsgFault) = some MsgFault.storeSeen))]

/-- A fresh (non-duplicate) message is routed, recorded as processed and
marked seen. -/
theorem process_message_fresh (cfg : Config) (now : Int)
    (inbox : EmailInbox) (st : DBState × ImapState) (num : Nat)
    (raw : RawEmail)
    (hne : ¬((parse_email raw).sender = "" ∨ (parse_email raw).subject = ""))
    (hdup : is_duplicate cfg now st.1 inbox.id (parse_email raw).sender
      (hash_subject (parse_email raw).subject) = false) :
    process_message cfg none now inbox st (num, raw) =
      (mark_processed now
        (route_email false cfg st.1 inbox (parse_email raw).sender
          (parse_email raw).subject (parse_email raw).body).1
        inbox.id (parse_email raw).message_id (parse_email raw).sender
        (hash_subject (parse_email raw).subject),
       store_seen st.2 num) := by
  simp only [process_message, process_message_inner, if_neg hne]
  rw [if_neg (by simp : ¬((none : Option MsgFault) = some MsgFault.dupCheck)),
    if_neg (by simp [hdup] :
      ¬(is_duplicate cfg now st.1 inbox.id (parse_email raw).sender
        (hash_subject (parse_email raw).subject) = true)),
    if_neg (by simp :
      ¬((none : Option MsgFault) = some MsgFault.markProcessed)),
    if_neg (by simp : ¬((none : Option MsgFault) = some MsgFault.storeSeen))]
  rfl

/-- Flagging one message seen touches no other message and no other field. -/
theorem store_seen_nums (s : ImapState) (n : Nat) :
    (store_seen s n).msgs.map (fun m => m.num) =
      s.msgs.map (fun m => m.num) := by
  simp only [store_seen, List.map_map]
  apply List.map_congr_left
  intro m _
  by_cases h : m.num = n <;> simp [h]

theorem store_seen_mem_of_ne (s : ImapState) (n : Nat) (e : ImapMessage)
    (he : e ∈ s.msgs) (hne : e.num ≠ n) : e ∈ (store_seen s n).msgs := by
  have : (fun m => if m.num = n then { m with seen := true } else m) e = e :=
    by simp [hne]
  simpa [store_seen, this] using List.mem_map_of_mem
    (fun m => if m.num = n then { m with seen := true } else m) he

/-- Per-message processing either leaves the mailbox untouched or flags
exactly the processed message seen. -/
theorem process_message_imap_or (cfg : Config) (fault : Option MsgFault)
    (now : Int) (inbox : EmailInbox) (st : DBState × ImapState)
    (num : Nat) (raw : RawEmail) :
    (process_message cfg fault now inbox st (num, raw)).2 = st.2 ∨
    (process_message cfg fault now inbox st (num, raw)).2 =
      store_seen st.2 num := by
  by_cases hA : (parse_email raw).sender = "" ∨ (parse_email raw).subject = ""
  · left; rw [process_message_discard _ _ _ _ _ _ _ hA]
  · simp only [process_message, process_message_inner, if_neg hA]
    by_cases hB : fault = some MsgFault.dupCheck
    · rw [if_pos hB]; left; rfl
    · rw [if_neg hB]
      by_cases hC : is_duplicate cfg now st.1 inbox.id
          (parse_email raw).sender
          (hash_subject (parse_email raw).subject) = true
      · rw [if_pos hC]
        by_cases hD : fault = some MsgFault.storeSeen
        · rw [if_pos hD]; left; rfl
        · rw [if_neg hD]; right; rfl
      · rw [if_neg hC]
        by_cases hE : fault = some MsgFault.markProcessed
        · rw [if_pos hE]; left; rfl
        · rw [if_neg hE]
          by_cases hF : fault = some MsgFault.storeSeen
          · rw [if_pos hF]; left; rfl
          · rw [if_neg hF]; right; rfl

/-- Per-message processing never writes the `email_inboxes` table. -/
theorem process_message_inboxes (cfg : Config) (fault : Option MsgFault)
    (now : Int) (inbox : EmailInbox) (st : DBState × ImapState)
    (num : Nat) (raw : RawEmail) :
    (process_message cfg fault now inbox st (num, raw)).1.inboxes =
      st.1.inboxes := by
  by_cases hA : (parse_email raw).sender = "" ∨ (parse_email raw).subject = ""
  · rw [process_message_discard _ _ _ _ _ _ _ hA]
  · simp only [process_message, process_message_inner, if_neg hA]
    by_cases hB : fault = some MsgFault.dupCheck
    · rw [if_pos hB]
    · rw [if_neg hB]
      by_cases hC : is_duplicate cfg now st.1 inbox.id
          (parse_email raw).sender
          (hash_subject (parse_email raw).subject) = true
      · rw [if_pos hC]
        by_cases hD : fault = some MsgFault.storeSeen
        · rw [if_pos hD]
        · rw [if_neg hD]
      · rw [if_neg hC]
        by_cases hE : fault = some MsgFault.markProcessed
        · rw [if_pos hE]
          exact route_email_inboxes ..
        · rw [if_neg hE]
          by_cases hF : fault = some MsgFault.storeSeen
          · rw [if_pos hF]
            exact route_email_inboxes ..
          · rw [if_neg hF]
            exact route_email_inboxes ..

theorem foldl_process_inboxes (cfg : Config) (faultOf : Nat → Option MsgFault)
    (now : Int) (inbox : EmailInbox) :
    ∀ (l : List (Nat × RawEmail)) (st : DBState × ImapState),
      ((l.foldl
        (fun st p => process_message cfg (faultOf p.1) now inbox st p)
        st).1).inboxes = st.1.inboxes := by
  intro l
  induction l with
  | nil => intro st; rfl
  | cons p rest ih =>
      intro st
      rw [List.foldl_cons, ih]
      obtain ⟨n, r⟩ := p
      exact process_message_inboxes ..

/-- An inbox id with no row: the cycle is a no-op. -/
theorem poll_inbox_not_found (cfg : Config) (faultOf : Nat → Option MsgFault)
    (connectOk listOk : Bool) (now : Int) (inbox_id : Nat) (db : DBState)
    (imap : ImapState)
    (h : db.inboxes.find? (fun ib => ib.id == inbox_id) = none) :
    poll_inbox cfg faultOf connectOk listOk now inbox_id db imap =
      (db, imap) := by
  simp [poll_inbox, h]

/-- An inactive inbox: the cycle is a no-op, not an error. -/
theorem poll_inbox_inactive (cfg : Config) (faultOf : Nat → Option MsgFault)
    (connectOk listOk : Bool) (now : Int) (inbox_id : Nat) (db : DBState)
    (imap : ImapState) (inbox : EmailInbox)
    (h : db.inboxes.find? (fun ib => ib.id == inbox_id) = some inbox)
    (hact : inbox.is_active = false) :
    poll_inbox cfg faultOf connectOk listOk now inbox_id db imap =
      (db, imap) := by
  simp [poll_inbox, h, hact]

/-- A connection failure aborts the cycle with no state change at all. -/
theorem poll_inbox_connect_fail (cfg : Config)
    (faultOf : Nat → Option MsgFault) (listOk : Bool) (now : Int)
    (inbox_id : Nat) (db : DBState) (imap : ImapState) (inbox : EmailInbox)
    (h : db.inboxes.find? (fun ib => ib.id == inbox_id) = some inbox)
    (hact : inbox.is_active = true) :
    poll_inbox cfg faultOf false listOk now inbox_id db imap =
      (db, imap) := by
  simp [poll_inbox, h, hact]

/-- A cycle whose connection succeeded finalizes: the inbox rows after the
cycle are exactly the rows before it, with `last_polled_at` of the polled
inbox set to `now` and every other column and row untouched. -/
theorem poll_inbox_finalizes (cfg : Config) (faultOf : Nat → Option MsgFault)
    (listOk : Bool) (now : Int) (inbox_id : Nat) (db : DBState)
    (imap : ImapState) (inbox : EmailInbox)
    (h : db.inboxes.find? (fun ib => ib.id == inbox_id) = some inbox)
    (hact : inbox.is_active = true) :
    (poll_inbox cfg faultOf true listOk now inbox_id db imap).1.inboxes =
      db.inboxes.map (fun ib =>
        if ib.id = inbox_id then { ib with last_polled_at := some now }
        else ib) := by
  simp only [poll_inbox, h, hact, Bool.not_true, Bool.false_eq_true,
    if_false, Bool.not_false]
  rw [show (finalize_poll ((if listOk then fetch_unread_emails imap
      else []).foldl
      (fun st p => process_message cfg (faultOf p.1) now inbox st p)
      (db, imap)).1 inbox_id now).inboxes =
    (((if listOk then fetch_unread_emails imap else []).foldl
      (fun st p => process_message cfg (faultOf p.1) now inbox st p)
      (db, imap)).1).inboxes.map (fun ib =>
        if ib.id = inbox_id then { ib with last_polled_at := some now }
        else ib) from rfl]
  rw [foldl_process_inboxes]

/-- `_is_duplicate` is exactly the existence of a matching Processed-Email
row inside the trailing window. -/
theorem is_duplicate_iff (cfg : Config) (now : Int) (db : DBState)
    (inbox_id : Nat) (sender subject_hash : String) :
    is_duplicate cfg now db inbox_id sender subject_hash = true ↔
    ∃ r ∈ db.processed_emails,
      r.inbox_id = inbox_id ∧ r.sender_email = sender ∧
      r.subject_hash = subject_hash ∧
      now - cfg.DUPLICATE_EMAIL_THRESHOLD_MINUTES ≤ r.processed_at := by
  simp [is_duplicate, List.any_eq_true, and_assoc]

theorem is_duplicate_of_record (cfg : Config) (now : Int) (db : DBState)
    (inbox_id : Nat) (sender subject_hash : String) (r : ProcessedEmail)
    (hr : r ∈ db.processed_emails) (h1 : r.inbox_id = inbox_id)
    (h2 : r.sender_email = sender) (h3 : r.subject_hash = subject_hash)
    (h4 : now - cfg.DUPLICATE_EMAIL_THRESHOLD_MINUTES ≤ r.processed_at) :
    is_duplicate cfg now db inbox_id sender subject_hash = true :=
  (is_duplicate_iff ..).mpr ⟨r, hr, h1, h2, h3, h4⟩

theorem is_duplicate_eq_false (cfg : Config) (now : Int) (db : DBState)
    (inbox_id : Nat) (sender subject_hash : String)
    (h : ∀ r ∈ db.processed_emails,
      ¬(r.inbox_id = inbox_id ∧ r.sender_email = sender ∧
        r.subject_hash = subject_hash)) :
    is_duplicate cfg now db inbox_id sender subject_hash = false := by
  rw [Bool.eq_false_iff]
  intro hc
  obtain ⟨r, hr, h1, h2, h3, _⟩ := (is_duplicate_iff ..).mp hc
  exact h r hr ⟨h1, h2, h3⟩

theorem itemCount_mark_processed (now : Int) (db : DBState) (inbox_id : Nat)
    (message_id sender subject_hash : String) :
    itemCount (mark_processed now db inbox_id message_id sender subject_hash)
      = itemCount db := rfl

theorem dupInv_step (cfg : Config)
    (hth : 0 ≤ cfg.DUPLICATE_EMAIL_THRESHOLD_MINUTES)
    (inbox : EmailInbox) (inboxId : Nat) (hid : inbox.id = inboxId)
    (raw : RawEmail)
    (hne : ¬((parse_email raw).sender = "" ∨ (parse_email raw).subject = ""))
    (hlen : (parse_email raw).sender.length ≤ 255)
    (T0 : Nat) (t1 now : Int) (h1 : t1 ≤ now)
    (h2 : now ≤ t1 + cfg.DUPLICATE_EMAIL_THRESHOLD_MINUTES)
    (st : DBState × ImapState) (num : Nat)
    (hinv : dupInv inboxId (parse_email raw).sender
      (hash_subject (parse_email raw).subject) T0 t1 st.1) :
    dupInv inboxId (parse_email raw).sender
      (hash_subject (parse_email raw).subject) T0 t1
      (process_message cfg none now inbox st (num, raw)).1 := by
  rcases hinv with ⟨hno, hcount⟩ | ⟨⟨r, hr, hri, hrs, hrh, hrt⟩, hcount⟩
  · have hdup : is_duplicate cfg now st.1 inbox.id
        (parse_email raw).sender
        (hash_subject (parse_email raw).subject) = false := by
      apply is_duplicate_eq_false
      intro r hr hc
      refine hno r hr ⟨?_, hc.2.1, hc.2.2⟩
      rw [hc.1, hid]
    rw [process_message_fresh _ _ _ _ _ _ hne hdup]
    right
    constructor
    · refine ⟨⟨inbox.id, pySlice (parse_email raw).message_id 255,
        pySlice (parse_email raw).sender 255,
        hash_subject (parse_email raw).subject, now⟩,
        ?_, hid, pySlice_of_length_le _ _ hlen, rfl, h1⟩
      simp [mark_processed]
    · rw [itemCount_mark_processed, route_email_itemCount, hcount]
  · have hdup : is_duplicate cfg now st.1 inbox.id
        (parse_email raw).sender
        (hash_subject (parse_email raw).subject) = true := by
      refine is_duplicate_of_record cfg now st.1 inbox.id _ _ r hr ?_ hrs hrh
        (by omega)
      rw [hri, hid]
    rw [process_message_dup_hit _ _ _ _ _ _ hne hdup]
    exact Or.inr ⟨⟨r, hr, hri, hrs, hrh, hrt⟩, hcount⟩

theorem dupInv_fold (cfg : Config)
    (hth : 0 ≤ cfg.DUPLICATE_EMAIL_THRESHOLD_MINUTES)
    (inbox : EmailInbox) (inboxId : Nat) (hid : inbox.id = inboxId)
    (raw : RawEmail)
    (hne : ¬((parse_email raw).sender = "" ∨ (parse_email raw).subject = ""))
    (hlen : (parse_email raw).sender.length ≤ 255)
    (T0 : Nat) (t1 now : Int) (h1 : t1 ≤ now)
    (h2 : now ≤ t1 + cfg.DUPLICATE_EMAIL_THRESHOLD_MINUTES) :
    ∀ (l : List (Nat × RawEmail)) (hl : ∀ p ∈ l, p.2 = raw)
      (st : DBState × ImapState),
      dupInv inboxId (parse_email raw).sender
        (hash_subject (parse_email raw).subject) T0 t1 st.1 →
      dupInv inboxId (parse_email raw).sender
        (hash_subject (parse_email raw).subject) T0 t1
        ((l.foldl (fun st p => process_message cfg none now inbox st p)
          st).1) := by
  intro l
  induction l with
  | nil => intro _ st hinv; exact hinv
  | cons p rest ih =>
      intro hl st hinv
      rw [List.foldl_cons]
      apply ih (fun q hq => hl q (List.mem_cons_of_mem _ hq))
      obtain ⟨n, r⟩ := p
      have : r = raw := hl (n, r) (List.mem_cons_self _ _)
      subst this
      exact dupInv_step cfg hth inbox inboxId hid _ hne hlen T0 t1 now h1 h2
        st n hinv

theorem fetch_unread_mem (s : ImapState) (p : Nat × RawEmail)
    (hp : p ∈ fetch_unread_emails s) :
    ∃ m ∈ s.msgs, m.seen = false ∧ p = (m.num, m.raw) := by
  simp only [fetch_unread_emails, List.mem_map, List.mem_filter] at hp
  obtain ⟨m, ⟨hm, hseen⟩, hpm⟩ := hp
  exact ⟨m, hm, by simpa using hseen, hpm.symm⟩

theorem dupInv_finalize (inboxId : Nat) (s hsub : String) (T0 : Nat)
    (t1 : Int) (db : DBState) (pid : Nat) (now : Int)
    (h : dupInv inboxId s hsub T0 t1 db) :
    dupInv inboxId s hsub T0 t1 (finalize_poll db pid now) := h

theorem find_inbox_id (db : DBState) (inbox_id : Nat) (inbox : EmailInbox)
    (h : db.inboxes.find? (fun ib => ib.id == inbox_id) = some inbox) :
    inbox.id = inbox_id := by
  have := List.find?_some h
  simpa using this

theorem dupInv_cycle (cfg : Config)
    (hth : 0 ≤ cfg.DUPLICATE_EMAIL_THRESHOLD_MINUTES)
    (inboxId : Nat) (raw : RawEmail)
    (hne : ¬((parse_email raw).sender = "" ∨ (parse_email raw).subject = ""))
    (hlen : (parse_email raw).sender.length ≤ 255)
    (T0 : Nat) (t1 now : Int) (h1 : t1 ≤ now)
    (h2 : now ≤ t1 + cfg.DUPLICATE_EMAIL_THRESHOLD_MINUTES)
    (db : DBState) (imap : ImapState) (cOk lOk : Bool)
    (himap : ∀ m ∈ imap.msgs, m.raw = raw)
    (hinv : dupInv inboxId (parse_email raw).sender
      (hash_subject (parse_email raw).subject) T0 t1 db) :
    dupInv inboxId (parse_email raw).sender
      (hash_subject (parse_email raw).subject) T0 t1
      (poll_inbox cfg (fun _ => none) cOk lOk now inboxId db imap).1 := by
  rcases hfind : db.inboxes.find? (fun ib => ib.id == inboxId) with _ | inbox
  · rw [poll_inbox_not_found _ _ _ _ _ _ _ _ hfind]; exact hinv
  · have hid : inbox.id = inboxId := find_inbox_id _ _ _ hfind
    by_cases hact : inbox.is_active = true
    · cases cOk with
      | false =>
          rw [poll_inbox_connect_fail _ _ _ _ _ _ _ _ hfind hact]
          exact hinv
      | true =>
          have hpoll : poll_inbox cfg (fun _ => none) true lOk now inboxId
              db imap =
            (finalize_poll
              (((if lOk then fetch_unread_emails imap else []).foldl
                (fun st p => process_message cfg none now inbox st p)
                (db, imap)).1) inboxId now,
             ((if lOk then fetch_unread_emails imap else []).foldl
                (fun st p => process_message cfg none now inbox st p)
                (db, imap)).2) := by
            simp [poll_inbox, hfind, hact]
          rw [hpoll]
          apply dupInv_finalize
          apply dupInv_fold cfg hth inbox inboxId hid raw hne hlen T0 t1 now
            h1 h2 _ ?_ (db, imap) hinv
          intro p hp
          cases lOk with
          | false => simp at hp
          | true =>
              simp only [if_true] at hp
              obtain ⟨m, hm, _, hpm⟩ := fetch_unread_mem imap p hp
              rw [hpm]
              exact himap m hm
    · have hact' : inbox.is_active = false := by
        simpa using hact
      rw [poll_inbox_inactive _ _ _ _ _ _ _ _ _ hfind hact']
      exact hinv

theorem dupInv_runReplay (cfg : Config)
    (hth : 0 ≤ cfg.DUPLICATE_EMAIL_THRESHOLD_MINUTES)
    (inboxId : Nat) (raw : RawEmail)
    (hne : ¬((parse_email raw).sender = "" ∨ (parse_email raw).subject = ""))
    (hlen : (parse_email raw).sender.length ≤ 255)
    (T0 : Nat) (t1 : Int) :
    ∀ (cycles : List ReplayCycle)
      (hcyc : ∀ c ∈ cycles, t1 ≤ c.now ∧
        c.now ≤ t1 + cfg.DUPLICATE_EMAIL_THRESHOLD_MINUTES ∧
        ∀ m ∈ c.imap.msgs, m.raw = raw)
      (db : DBState),
      dupInv inboxId (parse_email raw).sender
        (hash_subject (parse_email raw).subject) T0 t1 db →
      dupInv inboxId (parse_email raw).sender
        (hash_subject (parse_email raw).subject) T0 t1
        (runReplay cfg inboxId db cycles) := by
  intro cycles
  induction cycles with
  | nil => intro _ db hinv; exact hinv
  | cons c rest ih =>
      intro hcyc db hinv
      obtain ⟨hc1, hc2, hc3⟩ := hcyc c (List.mem_cons_self _ _)
      exact ih (fun c' hc' => hcyc c' (List.mem_cons_of_mem _ hc'))
        _ (dupInv_cycle cfg hth inboxId raw hne hlen T0 t1 c.now hc1 hc2
          db c.imap c.connectOk c.listOk hc3 hinv)

/-- **C1.** For every inbox, sender and subject: replaying a message with
the same `(inbox, sender, subject)` across any number of poll cycles whose
times stay inside the duplicate-detection threshold window creates at most
one ticket-or-standby row in total (starting from a store with no
Processed-Email row for that fingerprint, over cycles in which every
delivered message is a copy of the replayed one); and on a
duplicate-detection hit the orchestrator marks the message seen, skips
routing and materialization (the store is unchanged), and continues the
per-message loop. -/
theorem C1_idempotent_duplicate_suppression
    (cfg : Config) (hth : 0 ≤ cfg.DUPLICATE_EMAIL_THRESHOLD_MINUTES)
    (inboxId : Nat) (raw : RawEmail)
    (hs : (parse_email raw).sender ≠ "")
    (hsub : (parse_email raw).subject ≠ "")
    (hlen : (parse_email raw).sender.length ≤ 255)
    (db0 : DBState)
    (h0 : ∀ r ∈ db0.processed_emails,
      ¬(r.inbox_id = inboxId ∧ r.sender_email = (parse_email raw).sender ∧
        r.subject_hash = hash_subject (parse_email raw).subject))
    (t1 : Int) (cycles : List ReplayCycle)
    (hcyc : ∀ c ∈ cycles, t1 ≤ c.now ∧
      c.now ≤ t1 + cfg.DUPLICATE_EMAIL_THRESHOLD_MINUTES ∧
      ∀ m ∈ c.imap.msgs, m.raw = raw) :
    itemCount (runReplay cfg inboxId db0 cycles) ≤ itemCount db0 + 1 ∧
    (∀ (now : Int) (inbox : EmailInbox) (st : DBState × ImapState)
      (num : Nat),
      is_duplicate cfg now st.1 inbox.id (parse_email raw).sender
        (hash_subject (parse_email raw).subject) = true →
      process_message cfg none now inbox st (num, raw) =
        (st.1, store_seen st.2 num)) := by
  constructor
  · have hne : ¬((parse_email raw).sender = "" ∨
        (parse_email raw).subject = "") := not_or.mpr ⟨hs, hsub⟩
    have hrun := dupInv_runReplay cfg hth inboxId raw hne hlen
      (itemCount db0) t1 cycles hcyc db0 (Or.inl ⟨h0, rfl⟩)
    rcases hrun with ⟨_, hc⟩ | ⟨_, hc⟩
    · omega
    · exact hc
  · intro now inbox st num hdup
    exact process_message_dup_hit _ _ _ _ _ _ (not_or.mpr ⟨hs, hsub⟩) hdup

theorem C1_idempotent_duplicate_suppression_witness :
    itemCount (runReplay c1Cfg 1 c1Db c1Cycles) ≤ itemCount c1Db + 1 ∧
    process_message c1Cfg none 10 c1Inbox c1DupState (3, c1Raw) =
      (c1DupState.1, store_seen c1DupState.2 3) := by
  constructor
  · exact (C1_idempotent_duplicate_suppression c1Cfg (by decide) 1 c1Raw
      (by decide) (by decide) (by decide) c1Db (by decide) 0 c1Cycles
      (by decide)).1
  · exact (C1_idempotent_duplicate_suppression c1Cfg (by decide) 1 c1Raw
      (by decide) (by decide) (by decide) c1Db (by decide) 0 c1Cycles
      (by decide)).2 10 c1Inbox c1DupState 3 (by decide)

/-- When every candidate the uuid stream can produce is fresh for this
store, `_create_ticket` commits on the first attempt. -/
theorem create_ticket_fresh (cfg : Config) (db : DBState) (board : Board)
    (sender subject body : String) (inbox : EmailInbox)
    (hfresh : ∀ n, cfg.uuidGen n ∉ db.tickets.map (fun t => t.uuid) ∧
      cfg.uuidGen n ∉ db.external_ticket_uuids) :
    create_ticket cfg db board sender subject body inbox =
      ({ db with
          tickets := db.tickets ++
            [{ uuid := cfg.uuidGen db.uuid_drawn, board_id := board.id,
               title := pySlice subject 255,
               description := pySlice body 6000, creator_email := sender,
               source := "email", state := "new" }]
          uuid_drawn := db.uuid_drawn + 1 },
       some { uuid := cfg.uuidGen db.uuid_drawn, board_id := board.id,
              title := pySlice subject 255, description := pySlice body 6000,
              creator_email := sender, source := "email", state := "new" })
      := by
  have h := uuidAttempts_first_fresh
    (fun i => cfg.uuidGen (db.uuid_drawn + i))
    (db.tickets.map (fun t => t.uuid)) db.external_ticket_uuids 10 0
    ((hfresh (db.uuid_drawn + 0)).1) ((hfresh (db.uuid_drawn + 0)).2)
    (by omega)
  simp [create_ticket, h]

/-- The uniquely bound non-archived board is what the exclusive query
returns. -/
theorem exclusiveFind_eq (db : DBState) (inbox : EmailInbox) (B : Board)
    (hmem : B ∈ db.boards)
    (hbound : B.exclusive_inbox_id = some inbox.id)
    (harch : B.is_archived = false)
    (huniq : ∀ b ∈ db.boards, b.exclusive_inbox_id = some inbox.id →
      b.is_archived = false → b = B) :
    exclusiveFind db inbox = some B := by
  have hsome : (db.boards.find? (fun b =>
      b.exclusive_inbox_id == some inbox.id && !b.is_archived)).isSome := by
    rw [List.find?_isSome]
    exact ⟨B, hmem, by simp [hbound, harch]⟩
  obtain ⟨y, hy⟩ := Option.isSome_iff_exists.mp hsome
  have hp := List.find?_some hy
  have hmy := List.mem_of_find?_eq_some hy
  simp only [Bool.and_eq_true, beq_iff_eq, Bool.not_eq_true'] at hp
  rw [exclusiveFind, hy, huniq y hmy hp.1 hp.2]

/-- **C2.** If a non-archived board owned by the account has the polled
inbox bound as its exclusive inbox (and, as the configuration layer is
assumed to guarantee, it is the only such board), routing selects that
board regardless of keywords: the outcome is exactly one ticket on `B`,
and never a ticket on any other board `B'` — in particular not on a board
whose keyword occurs in the subject. -/
theorem C2_exclusivity_preemption (cfg : Config) (db : DBState)
    (inbox : EmailInbox) (sender subject body : String) (B : Board)
    (hmem : B ∈ db.boards)
    (hbound : B.exclusive_inbox_id = some inbox.id)
    (harch : B.is_archived = false)
    (huniq : ∀ b ∈ db.boards, b.exclusive_inbox_id = some inbox.id →
      b.is_archived = false → b = B)
    (hfresh : ∀ n, cfg.uuidGen n ∉ db.tickets.map (fun t => t.uuid) ∧
      cfg.uuidGen n ∉ db.external_ticket_uuids) :
    ∃ t, route_email false cfg db inbox sender subject body =
        ({ db with
            tickets := db.tickets ++ [t]
            uuid_drawn := db.uuid_drawn + 1 }, some t) ∧
      t.board_id = B.id ∧
      ∀ B' ∈ db.boards, B'.id ≠ B.id → t.board_id ≠ B'.id := by
  have hx := exclusiveFind_eq db inbox B hmem hbound harch huniq
  have hct := create_ticket_fresh cfg db B sender subject body inbox hfresh
  refine ⟨⟨cfg.uuidGen db.uuid_drawn, B.id, pySlice subject 255,
      pySlice body 6000, sender, "email", "new"⟩, ?_, rfl, ?_⟩
  · simp only [route_email, route_email_try, hx, hct, Bool.false_eq_true,
      if_false]
  · intro B' _ hne
    simpa using fun hc => hne hc.symm

theorem C2_exclusivity_preemption_witness :
    ∃ t, route_email false c2Cfg c2Db c2Inbox "user@x.com"
        "URGENT bug in login" "it crashed" =
      ({ c2Db with
          tickets := c2Db.tickets ++ [t]
          uuid_drawn := c2Db.uuid_drawn + 1 }, some t) ∧
      t.board_id = c2B.id ∧
      ∀ B' ∈ c2Db.boards, B'.id ≠ c2B.id → t.board_id ≠ B'.id :=
  C2_exclusivity_preemption c2Cfg c2Db c2Inbox "user@x.com"
    "URGENT bug in login" "it crashed" c2B (by decide) (by decide)
    (by decide) (by decide) (by simp [c2Db])

/-- Every keyword the join returns has a board row behind it (the loop's
re-query cannot come back empty). -/
theorem keywordJoin_isSome (db : DBState) (manager_id : Nat) :
    ∀ kw ∈ keywordJoin db manager_id,
      (db.boards.find? (fun b => b.id == kw.board_id)).isSome := by
  intro kw hkw
  have hp := (List.mem_filter.mp hkw).2
  rcases h : db.boards.find? (fun b => b.id == kw.board_id) with _ | b
  · rw [h] at hp; simp at hp
  · simp [h]

/-- The keyword loop commits a ticket on the board of the first keyword
that occurs in the subject. -/
theorem keywordLoop_find (cfg : Config) (db : DBState) (inbox : EmailInbox)
    (sender subject body : String)
    (hfresh : ∀ n, cfg.uuidGen n ∉ db.tickets.map (fun t => t.uuid) ∧
      cfg.uuidGen n ∉ db.external_ticket_uuids) :
    ∀ (ks : List BoardKeyword)
      (hks : ∀ kw ∈ ks,
        (db.boards.find? (fun b => b.id == kw.board_id)).isSome)
      (kw : BoardKeyword)
      (hfind : ks.find?
        (fun k => pyContains (pyLower subject) (pyLower k.keyword)) =
        some kw),
      ∃ t, keywordLoop cfg db inbox sender subject body ks =
        Except.ok ({ db with
            tickets := db.tickets ++ [t]
            uuid_drawn := db.uuid_drawn + 1 }, some t) ∧
        t.board_id = kw.board_id ∧ t.uuid = cfg.uuidGen db.uuid_drawn := by
  intro ks
  induction ks with
  | nil => intro _ kw hfind; simp at hfind
  | cons k rest ih =>
      intro hks kw hfind
      by_cases hm : pyContains (pyLower subject) (pyLower k.keyword) = true
      · have hfk : (k :: rest).find?
            (fun k2 => pyContains (pyLower subject) (pyLower k2.keyword)) =
            some k := List.find?_cons_of_pos _ hm
        rw [hfk] at hfind
        obtain rfl : k = kw := by simpa using hfind
        have hsome := hks k (List.mem_cons_self _ _)
        obtain ⟨b, hb⟩ := Option.isSome_iff_exists.mp hsome
        have hbid : b.id = k.board_id := by
          simpa using List.find?_some hb
        refine ⟨⟨cfg.uuidGen db.uuid_drawn, b.id, pySlice subject 255,
          pySlice body 6000, sender, "email", "new"⟩, ?_, hbid, rfl⟩
        simp only [keywordLoop, if_pos hm, hb,
          create_ticket_fresh cfg db b sender subject body inbox hfresh]
      · have hfk : (k :: rest).find?
            (fun k2 => pyContains (pyLower subject) (pyLower k2.keyword)) =
            rest.find?
              (fun k2 => pyContains (pyLower subject) (pyLower k2.keyword)) :=
          List.find?_cons_of_neg _ hm
        rw [hfk] at hfind
        have := ih (fun kw2 h2 => hks kw2 (List.mem_cons_of_mem _ h2)) kw
          hfind
        simpa only [keywordLoop, if_neg hm] using this

/-- With no keyword occurring in the subject, the loop falls through to the
`no_keyword_match` standby item. -/
theorem keywordLoop_no_match (cfg : Config) (db : DBState)
    (inbox : EmailInbox) (sender subject body : String) :
    ∀ (ks : List BoardKeyword)
      (hnone : ∀ kw ∈ ks,
        pyContains (pyLower subject) (pyLower kw.keyword) = false),
      keywordLoop cfg db inbox sender subject body ks =
        Except.ok (create_standby_queue_item db inbox.manager_id sender
          subject body "no_keyword_match", none) := by
  intro ks
  induction ks with
  | nil => intro _; rfl
  | cons k rest ih =>
      intro hnone
      have hm : ¬(pyContains (pyLower subject) (pyLower k.keyword) = true) :=
        by simp [hnone k (List.mem_cons_self _ _)]
      simp only [keywordLoop, if_neg hm]
      exact ih (fun kw2 h2 => hnone kw2 (List.mem_cons_of_mem _ h2))

/-- **C3.** The routing engine evaluates in strict priority order:
(1) exclusive-inbox match first — regardless of keywords; (2) otherwise
the first keyword of the account's non-archived, non-exclusively-bound
boards that occurs case-insensitively in the subject wins; (3) if no
keyword matches, exactly one standby item tagged `no_keyword_match` and
zero tickets are produced; (4) an unexpected error during evaluation never
raises past the component — the function returns normally with exactly one
standby item tagged `no_board_match`. -/
theorem C3_routing_priority (cfg : Config) (db : DBState)
    (inbox : EmailInbox) (sender subject body : String) :
    (∀ board, exclusiveFind db inbox = some board →
      (∀ n, cfg.uuidGen n ∉ db.tickets.map (fun t => t.uuid) ∧
        cfg.uuidGen n ∉ db.external_ticket_uuids) →
      ∃ t, route_email false cfg db inbox sender subject body =
        ({ db with
            tickets := db.tickets ++ [t]
            uuid_drawn := db.uuid_drawn + 1 }, some t) ∧
        t.board_id = board.id) ∧
    (∀ kw, exclusiveFind db inbox = none →
      (keywordJoin db inbox.manager_id).find?
        (fun k => pyContains (pyLower subject) (pyLower k.keyword)) =
        some kw →
      (∀ n, cfg.uuidGen n ∉ db.tickets.map (fun t => t.uuid) ∧
        cfg.uuidGen n ∉ db.external_ticket_uuids) →
      ∃ t, route_email false cfg db inbox sender subject body =
        ({ db with
            tickets := db.tickets ++ [t]
            uuid_drawn := db.uuid_drawn + 1 }, some t) ∧
        t.board_id = kw.board_id) ∧
    (exclusiveFind db inbox = none →
      (∀ kw ∈ keywordJoin db inbox.manager_id,
        pyContains (pyLower subject) (pyLower kw.keyword) = false) →
      route_email false cfg db inbox sender subject body =
        ({ db with standby_queue_items := db.standby_queue_items ++
            [⟨inbox.manager_id, pySlice subject 255, body, sender,
              "no_keyword_match", 0⟩] }, none)) ∧
    (route_email true cfg db inbox sender subject body =
      ({ db with standby_queue_items := db.standby_queue_items ++
          [⟨inbox.manager_id, pySlice subject 255, body, sender,
            "no_board_match", 0⟩] }, none)) := by
  refine ⟨?_, ?_, ?_, ?_⟩
  · intro board hx hfresh
    refine ⟨⟨cfg.uuidGen db.uuid_drawn, board.id, pySlice subject 255,
      pySlice body 6000, sender, "email", "new"⟩, ?_, rfl⟩
    simp only [route_email, route_email_try, hx,
      create_ticket_fresh cfg db board sender subject body inbox hfresh,
      Bool.false_eq_true, if_false]
  · intro kw hx hfind hfresh
    obtain ⟨t, hloop, hbid, _⟩ := keywordLoop_find cfg db inbox sender
      subject body hfresh (keywordJoin db inbox.manager_id)
      (keywordJoin_isSome db inbox.manager_id) kw hfind
    refine ⟨t, ?_, hbid⟩
    simp only [route_email, route_email_try, hx, hloop,
      Bool.false_eq_true, if_false]
  · intro hx hnone
    have hloop := keywordLoop_no_match cfg db inbox sender subject body
      (keywordJoin db inbox.manager_id) hnone
    simp only [route_email, route_email_try, hx, hloop,
      Bool.false_eq_true, if_false]
    rfl
  · rfl

theorem C3_routing_priority_witness :
    (∃ t, route_email false c3Cfg c3Db c3Inbox "u@x.com"
        "read the Docs please" "b" =
      ({ c3Db with
          tickets := c3Db.tickets ++ [t]
          uuid_drawn := c3Db.uuid_drawn + 1 }, some t) ∧
      t.board_id = (⟨4, "docs"⟩ : BoardKeyword).board_id) ∧
    route_email false c3Cfg c3Db c3Inbox "u@x.com" "hello" "b" =
      ({ c3Db with standby_queue_items := c3Db.standby_queue_items ++
          [⟨c3Inbox.manager_id, pySlice "hello" 255, "b", "u@x.com",
            "no_keyword_match", 0⟩] }, none) ∧
    route_email true c3Cfg c3Db c3Inbox "u@x.com" "hello" "b" =
      ({ c3Db with standby_queue_items := c3Db.standby_queue_items ++
          [⟨c3Inbox.manager_id, pySlice "hello" 255, "b", "u@x.com",
            "no_board_match", 0⟩] }, none) := by
  refine ⟨?_, ?_, ?_⟩
  · exact (C3_routing_priority c3Cfg c3Db c3Inbox "u@x.com"
      "read the Docs please" "b").2.1 ⟨4, "docs"⟩ (by decide) (by decide)
      (by simp [c3Db])
  · exact (C3_routing_priority c3Cfg c3Db c3Inbox "u@x.com" "hello"
      "b").2.2.1 (by decide) (by decide)
  · exact (C3_routing_priority c3Cfg c3Db c3Inbox "u@x.com" "hello"
      "b").2.2.2

/-- **C8.** Every ticket a successful route persists has source `email`,
state `new`, title = subject truncated to the 255-character title column,
description = body truncated to the 6000-character description bound, and
creator = sender; the truncation is by code points, so the title is a
prefix of the subject (no trailing partial-character corruption), and a
300-character subject yields a title of exactly 255 characters. -/
theorem C8_ticket_materialization (err : Bool) (cfg : Config)
    (db : DBState) (inbox : EmailInbox) (sender subject body : String)
    (db1 : DBState) (t : Ticket)
    (h : route_email err cfg db inbox sender subject body = (db1, some t)) :
    t ∈ db1.tickets ∧ t.source = "email" ∧ t.state = "new" ∧
    t.title = pySlice subject 255 ∧ t.description = pySlice body 6000 ∧
    t.creator_email = sender ∧ t.title.data <+: subject.data ∧
    (subject.length = 300 → t.title.length = 255) := by
  rcases route_email_result err cfg db inbox sender subject body with
    ⟨db2, t2, heq, _, _, _, h4, h5, h6, h7, h8, h9⟩ |
    ⟨db2, fr, heq, _⟩
  · rw [h] at heq
    obtain ⟨hdb, ht⟩ := Prod.mk.injEq .. ▸ heq
    obtain rfl : t = t2 := by simpa using ht
    subst hdb
    refine ⟨?_, h5, h6, h7, h8, h9, ?_, ?_⟩
    · rw [h4]
      exact List.mem_append_right _ (List.mem_singleton_self _)
    · rw [h7, pySlice_data]
      exact List.take_prefix _ _
    · intro h300
      rw [h7, pySlice_length, h300]
      omega
  · rw [h] at heq
    simp at heq

set_option maxRecDepth 4000 in
theorem C8_ticket_materialization_witness :
    c8Ticket ∈ c8Db1.tickets ∧ c8Ticket.source = "email" ∧
    c8Ticket.state = "new" ∧ c8Ticket.title = pySlice c8Subject 255 ∧
    c8Ticket.description = pySlice "it crashed" 6000 ∧
    c8Ticket.creator_email = "u@x.com" ∧
    c8Ticket.title.data <+: c8Subject.data ∧
    (c8Subject.length = 300 → c8Ticket.title.length = 255) :=
  C8_ticket_materialization false c8Cfg c8Db c8Inbox "u@x.com" c8Subject
    "it crashed" c8Db1 c8Ticket (by decide)

/-- **C4.** `generate_unique_ticket_uuid` only ever returns an identifier
present in neither the tickets table nor the external-tickets table at the
time of the check, retrying up to the fixed bound of 10 attempts; when all
10 candidates collide it raises the distinct, explicit `RuntimeError`
instead of returning a duplicate. -/
theorem C4_unique_ticket_uuid (draw : Nat → Nat)
    (ticket_uuids external_uuids : List Nat) :
    (∀ u, generate_unique_ticket_uuid draw ticket_uuids external_uuids 10 =
        Except.ok u →
      u ∉ ticket_uuids ∧ u ∉ external_uuids) ∧
    ((∀ i < 10, draw i ∈ ticket_uuids ∨ draw i ∈ external_uuids) →
      generate_unique_ticket_uuid draw ticket_uuids external_uuids 10 =
        Except.error
          ("Failed to generate unique UUID after " ++ toString 10 ++
            " attempts")) := by
  constructor
  · intro u hok
    rcases h : uuidAttempts draw ticket_uuids external_uuids 0 10 with
      _ | ⟨v, k⟩
    · rw [generate_unique_ticket_uuid, h] at hok
      cases hok
    · rw [generate_unique_ticket_uuid, h] at hok
      obtain rfl : v = u := by simpa using hok
      exact uuidAttempts_fresh draw ticket_uuids external_uuids 10 0 _ _ h
  · intro hall
    rw [generate_unique_ticket_uuid,
      uuidAttempts_exhausted draw ticket_uuids external_uuids 10 0
        (fun j _ hj => hall j (by omega))]

theorem C4_unique_ticket_uuid_witness :
    ((3 : Nat) ∉ [(0 : Nat), 1, 2] ∧ (3 : Nat) ∉ [(9 : Nat)]) ∧
    generate_unique_ticket_uuid (fun _ => 7) [7] [] 10 =
      Except.error
        ("Failed to generate unique UUID after " ++ toString 10 ++
          " attempts") := by
  constructor
  · exact (C4_unique_ticket_uuid (fun i => i) [0, 1, 2] [9]).1 3 (by rfl)
  · exact (C4_unique_ticket_uuid (fun _ => 7) [7] []).2 (by decide)

theorem hexChar_mem_hexdigits : ∀ n, n < 16 →
    hexChar n ∈ "0123456789abcdef".data := by decide

theorem hexOfBytes_mem_hexdigits :
    ∀ (l : List Nat), ∀ c ∈ hexOfBytes l, c ∈ "0123456789abcdef".data := by
  intro l
  induction l with
  | nil => intro c hc; simp [hexOfBytes] at hc
  | cons b bs ih =>
      intro c hc
      simp only [hexOfBytes, List.mem_cons] at hc
      rcases hc with rfl | rfl | hc
      · exact hexChar_mem_hexdigits _ (Nat.mod_lt _ (by omega))
      · exact hexChar_mem_hexdigits _ (Nat.mod_lt _ (by omega))
      · exact ih c hc

/-- **C6.** `_is_duplicate` returns true exactly when a Processed-Email row
with the same inbox, the same sender and the same SHA-256 fingerprint of
the subject has `processed_at` at least `now` minus the configurable
threshold; the fingerprint is a 64-character lowercase-hex digest,
deterministic in the subject alone (two parsed messages differing only in
body fingerprint identically); the detector is a pure query (its embedding
returns only a boolean and takes no store writes); the threshold default is
60 minutes. -/
theorem C6_duplicate_detector (cfg : Config) (now : Int) (db : DBState)
    (inbox_id : Nat) (sender subject : String) :
    (is_duplicate cfg now db inbox_id sender (hash_subject subject) =
        true ↔
      ∃ r ∈ db.processed_emails,
        r.inbox_id = inbox_id ∧ r.sender_email = sender ∧
        r.subject_hash = hash_subject subject ∧
        now - cfg.DUPLICATE_EMAIL_THRESHOLD_MINUTES ≤ r.processed_at) ∧
    (hash_subject subject).length = 64 ∧
    (∀ c ∈ (hash_subject subject).data, c ∈ "0123456789abcdef".data) ∧
    (∀ message_id sender2 body1 body2 : String,
      hash_subject (parse_email
          (RawEmail.wellFormed message_id sender2 subject body1)).subject =
        hash_subject (parse_email
          (RawEmail.wellFormed message_id sender2 subject body2)).subject) ∧
    defaultDuplicateThresholdMinutes = 60 :=
  ⟨is_duplicate_iff cfg now db inbox_id sender (hash_subject subject),
   hash_subject_length subject,
   fun c hc => hexOfBytes_mem_hexdigits _ c hc,
   fun _ _ _ _ => rfl,
   rfl⟩

/-- **C5 counterexample.** A network failure during listing
(`listOk = false`, connection succeeded) does *not* abort the cycle:
`_fetch_unread_emails` swallows the error and returns an empty list, and
the cycle still finalizes, advancing `last_polled_at` from `none` to the
current time — contradicting the claim that a listing failure leaves
`last_polled_at` untouched. -/
theorem C5_listing_failure_still_finalizes :
    (poll_inbox c5Cfg (fun _ => none) true false 100 1 c5Db ⟨[]⟩).1.inboxes.map
        (fun ib => ib.last_polled_at) = [some 100] ∧
    c5Db.inboxes.map (fun ib => ib.last_polled_at) = [none] := by decide

/-- **C5 (amended).** A poll cycle updates `last_polled_at` to the current
time if and only if the *connection* phase succeeded (inbox found, active,
connect ok) — even with zero messages, and even when listing failed, since
listing failures are swallowed and treated as an empty message list — and
the update is the only change to any inbox row; an authentication or
network failure while connecting aborts the whole cycle with the entire
store untouched (zero tickets, zero processed-email records,
`last_polled_at` unchanged). -/
theorem C5_last_polled_semantics (cfg : Config)
    (faultOf : Nat → Option MsgFault) (listOk : Bool) (now : Int)
    (inbox_id : Nat) (db : DBState) (imap : ImapState) :
    (∀ inbox, db.inboxes.find? (fun ib => ib.id == inbox_id) = some inbox →
      inbox.is_active = true →
      poll_inbox cfg faultOf false listOk now inbox_id db imap =
        (db, imap)) ∧
    (∀ inbox, db.inboxes.find? (fun ib => ib.id == inbox_id) = some inbox →
      inbox.is_active = true →
      (poll_inbox cfg faultOf true listOk now inbox_id db imap).1.inboxes =
        db.inboxes.map (fun ib =>
          if ib.id = inbox_id then { ib with last_polled_at := some now }
          else ib)) ∧
    (db.inboxes.find? (fun ib => ib.id == inbox_id) = none →
      ∀ connectOk, poll_inbox cfg faultOf connectOk listOk now inbox_id db
        imap = (db, imap)) ∧
    (∀ inbox, db.inboxes.find? (fun ib => ib.id == inbox_id) = some inbox →
      inbox.is_active = false →
      ∀ connectOk, poll_inbox cfg faultOf connectOk listOk now inbox_id db
        imap = (db, imap)) := by
  refine ⟨?_, ?_, ?_, ?_⟩
  · intro inbox hfind hact
    exact poll_inbox_connect_fail cfg faultOf listOk now inbox_id db imap
      inbox hfind hact
  · intro inbox hfind hact
    exact poll_inbox_finalizes cfg faultOf listOk now inbox_id db imap
      inbox hfind hact
  · intro hfind connectOk
    exact poll_inbox_not_found cfg faultOf connectOk listOk now inbox_id db
      imap hfind
  · intro inbox hfind hact connectOk
    exact poll_inbox_inactive cfg faultOf connectOk listOk now inbox_id db
      imap inbox hfind hact

theorem C5_last_polled_semantics_witness :
    poll_inbox c5Cfg (fun _ => none) false true 100 1 c5Db ⟨[]⟩ =
      (c5Db, ⟨[]⟩) ∧
    (poll_inbox c5Cfg (fun _ => none) true true 100 1 c5Db ⟨[]⟩).1.inboxes =
      c5Db.inboxes.map (fun ib =>
        if ib.id = 1 then { ib with last_polled_at := some 100 } else ib) :=
  ⟨(C5_last_polled_semantics c5Cfg (fun _ => none) true 100 1 c5Db
      ⟨[]⟩).1 c5Inbox (by decide) (by decide),
   (C5_last_polled_semantics c5Cfg (fun _ => none) true 100 1 c5Db
      ⟨[]⟩).2.1 c5Inbox (by decide) (by decide)⟩

/-- **C7.** The ticket commit and the processed-record commit are separate
transactions (`_create_ticket` commits, then `_mark_processed` commits): a
failure of the processed-record commit after the ticket commit leaves a
reachable post-state containing the ticket but no Processed-Email row —
exactly one of the pair — contradicting "they commit together or not at
all".  The fault-free run shows the two writes were meant as a pair. -/
theorem C7_separate_commits :
    (process_message c7Cfg (some MsgFault.markProcessed) 0 c7Inbox
        (c7Db, ⟨[]⟩) (1, c7Raw)).1.tickets.length = 1 ∧
    (process_message c7Cfg (some MsgFault.markProcessed) 0 c7Inbox
        (c7Db, ⟨[]⟩) (1, c7Raw)).1.processed_emails = [] ∧
    (process_message c7Cfg none 0 c7Inbox
        (c7Db, ⟨[]⟩) (1, c7Raw)).1.tickets.length = 1 ∧
    (process_message c7Cfg none 0 c7Inbox
        (c7Db, ⟨[]⟩) (1, c7Raw)).1.processed_emails.length = 1 := by
  refine ⟨?_, ?_, ?_, ?_⟩ <;> decide

/-- **C9 counterexample.** The parse-failure fallback record does *not*
carry an empty body: its body is the placeholder
`"Failed to parse email body"`, so "a parsed record with empty sender/body"
is false at the malformed input. -/
theorem C9_fallback_body_not_empty :
    ¬((parse_email RawEmail.malformed).sender = "" ∧
      (parse_email RawEmail.malformed).body = "") := by decide

/-- **C9 (amended).** Every per-message exception is caught and affects
only that message — an exception at the duplicate-check stage leaves the
state untouched, the loop continues with the remaining messages unchanged,
and the cycle still finalizes whatever faults its messages raise; a parse
failure is converted into a record with empty sender and message id,
placeholder subject `"Failed to parse subject"` and placeholder body
`"Failed to parse email body"` (not an empty body); and any record with
empty sender or empty subject is discarded by the orchestrator before
duplicate checking or routing (no write, no seen flag). -/
theorem C9_per_message_isolation (cfg : Config)
    (faultOf : Nat → Option MsgFault) (listOk : Bool) (now : Int)
    (inbox_id : Nat) (db : DBState) (imap : ImapState) :
    (parse_email RawEmail.malformed =
      ⟨"", "", "Failed to parse subject", "Failed to parse email body"⟩) ∧
    (∀ (fault : Option MsgFault) (now2 : Int) (inbox : EmailInbox)
      (st : DBState × ImapState) (num : Nat) (raw : RawEmail),
      (parse_email raw).sender = "" ∨ (parse_email raw).subject = "" →
      process_message cfg fault now2 inbox st (num, raw) = st) ∧
    (∀ (now2 : Int) (inbox : EmailInbox) (st : DBState × ImapState)
      (num : Nat) (raw : RawEmail),
      process_message cfg (some MsgFault.dupCheck) now2 inbox st
        (num, raw) = st) ∧
    (∀ (inbox : EmailInbox) (st : DBState × ImapState) (p : Nat × RawEmail)
      (rest : List (Nat × RawEmail)),
      (p :: rest).foldl
        (fun st q => process_message cfg (faultOf q.1) now inbox st q) st =
      rest.foldl
        (fun st q => process_message cfg (faultOf q.1) now inbox st q)
        (process_message cfg (faultOf p.1) now inbox st p)) ∧
    (∀ inbox, db.inboxes.find? (fun ib => ib.id == inbox_id) = some inbox →
      inbox.is_active = true →
      (poll_inbox cfg faultOf true listOk now inbox_id db imap).1.inboxes =
        db.inboxes.map (fun ib =>
          if ib.id = inbox_id then { ib with last_polled_at := some now }
          else ib)) := by
  refine ⟨rfl, ?_, ?_, ?_, ?_⟩
  · intro fault now2 inbox st num raw h
    exact process_message_discard cfg fault now2 inbox st num raw h
  · intro now2 inbox st num raw
    exact process_message_dupCheck_fault cfg now2 inbox st num raw
  · intro inbox st p rest
    rfl
  · intro inbox hfind hact
    exact poll_inbox_finalizes cfg faultOf listOk now inbox_id db imap
      inbox hfind hact

theorem C9_per_message_isolation_witness :
    process_message c5Cfg (some MsgFault.dupCheck) 0 c5Inbox
      (c5Db, c9Imap) (1, RawEmail.malformed) = (c5Db, c9Imap) ∧
    process_message c5Cfg none 0 c5Inbox (c5Db, c9Imap)
      (1, RawEmail.malformed) = (c5Db, c9Imap) ∧
    (poll_inbox c5Cfg (fun _ => some MsgFault.dupCheck) true true 0 1 c5Db
      c9Imap).1.inboxes =
      c5Db.inboxes.map (fun ib =>
        if ib.id = 1 then { ib with last_polled_at := some 0 } else ib) :=
  ⟨(C9_per_message_isolation c5Cfg (fun _ => some MsgFault.dupCheck) true 0
      1 c5Db c9Imap).2.2.1 0 c5Inbox (c5Db, c9Imap) 1 RawEmail.malformed,
   (C9_per_message_isolation c5Cfg (fun _ => none) true 0 1 c5Db
      c9Imap).2.1 none 0 c5Inbox (c5Db, c9Imap) 1 RawEmail.malformed
      (Or.inl rfl),
   (C9_per_message_isolation c5Cfg (fun _ => some MsgFault.dupCheck) true 0
      1 c5Db c9Imap).2.2.2.2 c5Inbox (by decide) (by decide)⟩

theorem process_message_nums (cfg : Config) (fault : Option MsgFault)
    (now : Int) (inbox : EmailInbox) (st : DBState × ImapState)
    (num : Nat) (raw : RawEmail) :
    (process_message cfg fault now inbox st (num, raw)).2.msgs.map
        (fun m => m.num) =
      st.2.msgs.map (fun m => m.num) := by
  rcases process_message_imap_or cfg fault now inbox st num raw with h | h
  · rw [h]
  · rw [h]; exact store_seen_nums st.2 num

theorem process_message_preserves_entry (cfg : Config)
    (fault : Option MsgFault) (now : Int) (inbox : EmailInbox)
    (st : DBState × ImapState) (num : Nat) (raw : RawEmail)
    (e : ImapMessage) (he : e ∈ st.2.msgs) (hne : e.num ≠ num) :
    e ∈ (process_message cfg fault now inbox st (num, raw)).2.msgs := by
  rcases process_message_imap_or cfg fault now inbox st num raw with h | h
  · rw [h]; exact he
  · rw [h]; exact store_seen_mem_of_ne st.2 num e he hne

theorem fold_preserves_entry (cfg : Config)
    (faultOf : Nat → Option MsgFault) (now : Int) (inbox : EmailInbox)
    (e : ImapMessage)
    (hparse : (parse_email e.raw).sender = "" ∨
      (parse_email e.raw).subject = "") :
    ∀ (l : List (Nat × RawEmail))
      (hl : ∀ p ∈ l, p.1 ≠ e.num ∨ p = (e.num, e.raw))
      (st : DBState × ImapState), e ∈ st.2.msgs →
      e ∈ ((l.foldl
        (fun st p => process_message cfg (faultOf p.1) now inbox st p)
        st).2).msgs ∧
      ((l.foldl
        (fun st p => process_message cfg (faultOf p.1) now inbox st p)
        st).2).msgs.map (fun m => m.num) =
        st.2.msgs.map (fun m => m.num) := by
  intro l
  induction l with
  | nil => intro _ st he; exact ⟨he, rfl⟩
  | cons p rest ih =>
      intro hl st he
      rw [List.foldl_cons]
      rcases hl p (List.mem_cons_self _ _) with hne | hpe
      · obtain ⟨h1, h2⟩ := ih
          (fun q hq => hl q (List.mem_cons_of_mem _ hq))
          (process_message cfg (faultOf p.1) now inbox st p)
          (by
            obtain ⟨n, r⟩ := p
            exact process_message_preserves_entry cfg (faultOf n) now inbox
              st n r e he (fun hc => hne (by simpa using hc.symm)))
        refine ⟨h1, ?_⟩
        rw [h2]
        obtain ⟨n, r⟩ := p
        exact process_message_nums cfg (faultOf n) now inbox st n r
      · subst hpe
        rw [process_message_discard cfg (faultOf e.num) now inbox st e.num
          e.raw hparse]
        exact ih (fun q hq => hl q (List.mem_cons_of_mem _ hq)) st he

/-- One poll cycle leaves a message whose parsed record has an empty sender
or subject on the server, unseen, with the mailbox numbering intact. -/
theorem poll_preserves_unseen (cfg : Config)
    (faultOf : Nat → Option MsgFault) (connectOk listOk : Bool) (now : Int)
    (inboxId : Nat) (db : DBState) (imap : ImapState) (e : ImapMessage)
    (he : e ∈ imap.msgs)
    (hparse : (parse_email e.raw).sender = "" ∨
      (parse_email e.raw).subject = "")
    (hnodup : (imap.msgs.map (fun m => m.num)).Nodup) :
    e ∈ (poll_inbox cfg faultOf connectOk listOk now inboxId db
      imap).2.msgs ∧
    ((poll_inbox cfg faultOf connectOk listOk now inboxId db
      imap).2.msgs.map (fun m => m.num)) = imap.msgs.map (fun m => m.num)
    := by
  rcases hfind : db.inboxes.find? (fun ib => ib.id == inboxId) with _ | inbox
  · rw [poll_inbox_not_found _ _ _ _ _ _ _ _ hfind]; exact ⟨he, rfl⟩
  · by_cases hact : inbox.is_active = true
    · cases connectOk with
      | false =>
          rw [poll_inbox_connect_fail _ _ _ _ _ _ _ _ hfind hact]
          exact ⟨he, rfl⟩
      | true =>
          have hpoll : (poll_inbox cfg faultOf true listOk now inboxId db
              imap).2 =
            ((if listOk then fetch_unread_emails imap else []).foldl
              (fun st p => process_message cfg (faultOf p.1) now inbox st p)
              (db, imap)).2 := by
            simp [poll_inbox, hfind, hact]
          rw [hpoll]
          apply fold_preserves_entry cfg faultOf now inbox e hparse _ _
            (db, imap) he
          intro p hp
          cases listOk with
          | false => simp at hp
          | true =>
              simp only [if_true] at hp
              obtain ⟨m, hm, _, hpm⟩ := fetch_unread_mem imap p hp
              by_cases hmn : m.num = e.num
              · right
                have : m = e := List.inj_on_of_nodup_map hnodup hm he hmn
                rw [hpm, this]
              · left
                rw [hpm]
                exact hmn
    · have hact' : inbox.is_active = false := by simpa using hact
      rw [poll_inbox_inactive _ _ _ _ _ _ _ _ _ hfind hact']
      exact ⟨he, rfl⟩

theorem fetch_unread_of_mem (s : ImapState) (e : ImapMessage)
    (he : e ∈ s.msgs) (hseen : e.seen = false) :
    (e.num, e.raw) ∈ fetch_unread_emails s := by
  have hm : e ∈ s.msgs.filter (fun m => !m.seen) :=
    List.mem_filter.mpr ⟨he, by simp [hseen]⟩
  exact List.mem_map_of_mem (fun m => (m.num, m.raw)) hm

/-- **C10.** A message whose parsed record has an empty sender or an empty
subject (which includes every payload whose parse raises, since the
fallback record carries an empty sender) is discarded with no database
write and no seen flag — processing it is the identity on the state — so
after any number of subsequent polls of that inbox it is still on the
server, still unseen, and still returned by the unseen fetch. -/
theorem C10_discarded_messages_retry (cfg : Config) (inboxId : Nat)
    (runs : List PollRun) (db : DBState) (imap : ImapState)
    (e : ImapMessage) (he : e ∈ imap.msgs) (hseen : e.seen = false)
    (hparse : (parse_email e.raw).sender = "" ∨
      (parse_email e.raw).subject = "")
    (hnodup : (imap.msgs.map (fun m => m.num)).Nodup) :
    (∀ (fault : Option MsgFault) (now : Int) (inbox : EmailInbox)
      (st : DBState × ImapState),
      process_message cfg fault now inbox st (e.num, e.raw) = st) ∧
    (parse_email RawEmail.malformed).sender = "" ∧
    e ∈ (runPolls cfg inboxId (db, imap) runs).2.msgs ∧
    (e.num, e.raw) ∈
      fetch_unread_emails (runPolls cfg inboxId (db, imap) runs).2 := by
  have hmain : ∀ (runs : List PollRun) (st : DBState × ImapState),
      e ∈ st.2.msgs → (st.2.msgs.map (fun m => m.num)).Nodup →
      e ∈ (runPolls cfg inboxId st runs).2.msgs ∧
      ((runPolls cfg inboxId st runs).2.msgs.map (fun m => m.num)).Nodup
      := by
    intro runs
    induction runs with
    | nil => intro st h1 h2; exact ⟨h1, h2⟩
    | cons r rest ih =>
        intro st h1 h2
        obtain ⟨h1', h2'⟩ := poll_preserves_unseen cfg r.faultOf
          r.connectOk r.listOk r.now inboxId st.1 st.2 e h1 hparse h2
        exact ih _ h1' (h2' ▸ h2)
  obtain ⟨hmem, _⟩ := hmain runs (db, imap) he hnodup
  refine ⟨?_, rfl, hmem, fetch_unread_of_mem _ _ hmem hseen⟩
  intro fault now inbox st
  exact process_message_discard cfg fault now inbox st e.num e.raw hparse

theorem C10_discarded_messages_retry_witness :
    (∀ (fault : Option MsgFault) (now : Int) (inbox : EmailInbox)
      (st : DBState × ImapState),
      process_message c5Cfg fault now inbox st (c10Msg.num, c10Msg.raw) =
        st) ∧
    (parse_email RawEmail.malformed).sender = "" ∧
    c10Msg ∈ (runPolls c5Cfg 1 (c5Db, ⟨[c10Msg]⟩)
      [{ faultOf := fun _ => none, connectOk := true, listOk := true,
         now := 0 }]).2.msgs ∧
    (c10Msg.num, c10Msg.raw) ∈
      fetch_unread_emails (runPolls c5Cfg 1 (c5Db, ⟨[c10Msg]⟩)
        [{ faultOf := fun _ => none, connectOk := true, listOk := true,
           now := 0 }]).2 :=
  C10_discarded_messages_retry c5Cfg 1
    [{ faultOf := fun _ => none, connectOk := true, listOk := true,
       now := 0 }]
    c5Db ⟨[c10Msg]⟩ c10Msg (by decide) (by decide) (by decide) (by decide)

end EmailPolling
